import Mathlib

/-!
Shallow embedding of the morning-planner agent's query-routing and
location-resolution pipeline (src/app.py), together with proofs of the
specification's testable properties.  Strings are modelled as `List Char`;
Python's whitespace handling, JSON values and exception flow are made
explicit.
-/

set_option maxHeartbeats 1000000

namespace MorningPlanner

/-- ASCII model of the whitespace class used by `str.strip()` and `re`'s `\s`. -/
def isPySpace (c : Char) : Bool :=
  c = ' ' || c = '\t' || c = '\n' || c = '\r' || c = '\x0b' || c = '\x0c'

/-- ASCII lower-casing of a single character, as in `str.lower()`. -/
def toLowerChar (c : Char) : Char :=
  if 'A' ≤ c ∧ c ≤ 'Z' then Char.ofNat (c.toNat + 32) else c

/-- `str.lower()` over a whole string. -/
def lowerStr (l : List Char) : List Char := l.map toLowerChar

/-- `str.strip()`: drop leading and trailing whitespace. -/
def pyStrip (l : List Char) : List Char :=
  ((l.dropWhile isPySpace).reverse.dropWhile isPySpace).reverse

/-- `re.sub(r'\s+', ' ', s)`: collapse every whitespace run to a single space. -/
def collapseWS : List Char → List Char
  | [] => []
  | [c] => if isPySpace c then [' '] else [c]
  | c :: d :: rest =>
    if isPySpace c then
      if isPySpace d then collapseWS (d :: rest)
      else ' ' :: collapseWS (d :: rest)
    else c :: collapseWS (d :: rest)

/-- Substring test, as Python's `pat in s`. -/
def containsSub (s pat : List Char) : Bool :=
  match s with
  | [] => pat.isEmpty
  | _ :: tl => pat.isPrefixOf s || containsSub tl pat

/-- The interrogative words checked by `preprocess_query`. -/
def interrogatives : List (List Char) :=
  ["how", "what", "when", "where", "why", "is", "can", "will", "should"].map
    String.toList

/-- `any(query.lower().startswith(q) for q in [...])`. -/
def startsQ (l : List Char) : Bool :=
  interrogatives.any (fun w => w.isPrefixOf (lowerStr l))

/-- `query.endswith("?")`. -/
def endsQm (l : List Char) : Bool := l.getLast? = some '?'

/-- `preprocess_query` from src/app.py: strip, collapse whitespace, and
append a question mark to interrogative sentences lacking one. -/
def preprocess_query (q : List Char) : List Char :=
  let q1 := collapseWS (pyStrip q)
  if startsQ q1 ∧ ¬ endsQm q1 then q1 ++ ['?'] else q1

/-! ### Whitespace-normal-form lemmas for `preprocess_query` idempotence -/

/-- A string is whitespace-canonical when every whitespace character in it is a
plain space and no two whitespace characters are adjacent. -/
def canonWS : List Char → Prop
  | [] => True
  | [c] => isPySpace c = true → c = ' '
  | c :: d :: rest =>
    (isPySpace c = true → (c = ' ' ∧ isPySpace d = false)) ∧ canonWS (d :: rest)

theorem collapseWS_nil_iff (l : List Char) : collapseWS l = [] ↔ l = [] := by
  induction l with
  | nil => simp [collapseWS]
  | cons c tl ih =>
    cases tl with
    | nil =>
      simp only [collapseWS]
      cases h : isPySpace c <;> simp [h]
    | cons d rest =>
      simp only [collapseWS]
      cases h : isPySpace c
      · simp [h]
      · cases h2 : isPySpace d <;> simp [h, h2, ih]

/-- `collapseWS` keeps a non-space head character in place. -/
theorem collapseWS_head {c : Char} (l : List Char) (h : isPySpace c = false) :
    collapseWS (c :: l) = c :: collapseWS l := by
  cases l with
  | nil => simp [collapseWS, h]
  | cons d rest => simp [collapseWS, h]

theorem canonWS_collapseWS (l : List Char) : canonWS (collapseWS l) := by
  induction l with
  | nil => simp [collapseWS, canonWS]
  | cons c tl ih =>
    cases tl with
    | nil =>
      simp only [collapseWS]
      cases h : isPySpace c <;> simp [h, canonWS]
    | cons d rest =>
      cases h : isPySpace c
      · rw [show collapseWS (c :: d :: rest) = c :: collapseWS (d :: rest) by
          simp [collapseWS, h]]
        rcases e : collapseWS (d :: rest) with _ | ⟨x, xs⟩
        · simp [canonWS, h]
        · rw [e] at ih
          exact ⟨fun hc => by simp [hc] at h, ih⟩
      · cases h2 : isPySpace d
        · rw [show collapseWS (c :: d :: rest) = ' ' :: collapseWS (d :: rest) by
            simp [collapseWS, h, h2]]
          rw [collapseWS_head rest h2] at ih ⊢
          exact ⟨fun _ => ⟨rfl, h2⟩, ih⟩
        · rw [show collapseWS (c :: d :: rest) = collapseWS (d :: rest) by
            simp [collapseWS, h, h2]]
          exact ih

theorem collapseWS_eq_self {l : List Char} (h : canonWS l) :
    collapseWS l = l := by
  induction l with
  | nil => rfl
  | cons c tl ih =>
    cases tl with
    | nil =>
      simp only [collapseWS]
      cases hc : isPySpace c
      · simp
      · have := (h : isPySpace c = true → c = ' ') hc
        simp [this]
    | cons d rest =>
      cases hc : isPySpace c
      · rw [show collapseWS (c :: d :: rest) = c :: collapseWS (d :: rest) by
          simp [collapseWS, hc]]
        rw [ih h.2]
      · rcases h.1 hc with ⟨hce, hd⟩
        rw [show collapseWS (c :: d :: rest) = ' ' :: collapseWS (d :: rest) by
          simp [collapseWS, hc, hd]]
        rw [ih h.2, hce]

theorem canonWS_append_nonspace {l : List Char} {a : Char}
    (h : canonWS l) (ha : isPySpace a = false) : canonWS (l ++ [a]) := by
  induction l with
  | nil => simpa [canonWS] using fun hs => by simp [hs] at ha
  | cons c tl ih =>
    cases tl with
    | nil =>
      exact ⟨fun hc => ⟨(h : isPySpace c = true → c = ' ') hc, ha⟩,
        fun hs => by simp [hs] at ha⟩
    | cons d rest =>
      exact ⟨fun hc => h.1 hc, ih h.2⟩

theorem head_dropWhile_not {p : Char → Bool} :
    ∀ {l : List Char} {c : Char}, (l.dropWhile p).head? = some c → p c = false := by
  intro l
  induction l with
  | nil => intro c h; simp [List.dropWhile] at h
  | cons a tl ih =>
    intro c h
    by_cases ha : p a = true
    · rw [List.dropWhile_cons_of_pos ha] at h
      exact ih h
    · rw [List.dropWhile_cons_of_neg ha] at h
      simp at h
      rw [← h]
      exact Bool.not_eq_true _ ▸ (by simpa using ha)

theorem dropWhile_eq_self_of_head {p : Char → Bool} :
    ∀ {l : List Char}, (∀ c, l.head? = some c → p c = false) → l.dropWhile p = l
  | [], _ => rfl
  | c :: tl, h => by
    have := h c rfl
    simp [List.dropWhile, this]

theorem getLast?_cons_of_ne {x : Char} {X : List Char} (h : X ≠ []) :
    (x :: X).getLast? = X.getLast? := by
  cases X with
  | nil => exact absurd rfl h
  | cons y ys => simp [List.getLast?_cons_cons]

/-- A nonempty `dropWhile` keeps the original last element. -/
theorem getLast?_dropWhile {p : Char → Bool} :
    ∀ {l : List Char}, l.dropWhile p ≠ [] → (l.dropWhile p).getLast? = l.getLast? := by
  intro l
  induction l with
  | nil => intro h; simp [List.dropWhile] at h
  | cons a tl ih =>
    intro h
    by_cases ha : p a = true
    · rw [List.dropWhile_cons_of_pos ha] at h ⊢
      have htl : tl ≠ [] := by
        intro e; rw [e] at h; simp [List.dropWhile] at h
      rw [ih h, getLast?_cons_of_ne htl]
    · rw [List.dropWhile_cons_of_neg ha]

/-- The head of a stripped string is not whitespace. -/
theorem pyStrip_head {l : List Char} {c : Char}
    (h : (pyStrip l).head? = some c) : isPySpace c = false := by
  unfold pyStrip at h
  rw [List.head?_reverse] at h
  have hne : (l.dropWhile isPySpace).reverse.dropWhile isPySpace ≠ [] := by
    intro e; rw [e] at h; simp at h
  rw [getLast?_dropWhile hne, List.getLast?_reverse] at h
  exact head_dropWhile_not h

/-- The last character of a stripped string is not whitespace. -/
theorem pyStrip_getLast {l : List Char} {c : Char}
    (h : (pyStrip l).getLast? = some c) : isPySpace c = false := by
  unfold pyStrip at h
  rw [List.getLast?_reverse] at h
  exact head_dropWhile_not h

/-- `pyStrip` is the identity on strings with non-space ends. -/
theorem pyStrip_eq_self {l : List Char}
    (h1 : ∀ c, l.head? = some c → isPySpace c = false)
    (h2 : ∀ c, l.getLast? = some c → isPySpace c = false) :
    pyStrip l = l := by
  unfold pyStrip
  rw [dropWhile_eq_self_of_head h1]
  rw [dropWhile_eq_self_of_head (fun c hc =>
    h2 c (by rwa [List.head?_reverse] at hc))]
  exact l.reverse_reverse

/-- If a list ends in a non-space character, so does its `collapseWS`. -/
theorem collapseWS_getLast {l : List Char} {a : Char}
    (h : l.getLast? = some a) (ha : isPySpace a = false) :
    (collapseWS l).getLast? = some a := by
  induction l with
  | nil => simp at h
  | cons c tl ih =>
    cases tl with
    | nil =>
      simp only [List.getLast?_singleton, Option.some.injEq] at h
      subst h
      simp [collapseWS, ha]
    | cons d rest =>
      have h' : (d :: rest).getLast? = some a := by
        rwa [List.getLast?_cons_cons] at h
      have htl := ih h'
      have hne : collapseWS (d :: rest) ≠ [] := by
        intro e
        exact absurd ((collapseWS_nil_iff (d :: rest)).mp e) (by simp)
      cases hc : isPySpace c
      · rw [show collapseWS (c :: d :: rest) = c :: collapseWS (d :: rest) by
          simp [collapseWS, hc]]
        rw [getLast?_cons_of_ne hne]
        exact htl
      · cases h2 : isPySpace d
        · rw [show collapseWS (c :: d :: rest) = ' ' :: collapseWS (d :: rest) by
            simp [collapseWS, hc, h2]]
          rw [getLast?_cons_of_ne hne]
          exact htl
        · rw [show collapseWS (c :: d :: rest) = collapseWS (d :: rest) by
            simp [collapseWS, hc, h2]]
          exact htl

/-- The normalized core of `preprocess_query` is a fixed point of
strip-then-collapse. -/
theorem collapse_strip_fix (s : List Char) :
    collapseWS (pyStrip (collapseWS (pyStrip s))) = collapseWS (pyStrip s) := by
  set t := collapseWS (pyStrip s) with ht
  have hstrip : pyStrip t = t := by
    apply pyStrip_eq_self
    · intro c hc
      rcases e : pyStrip s with _ | ⟨x, xs⟩
      · rw [ht, e] at hc; simp [collapseWS] at hc
      · have hx : isPySpace x = false := pyStrip_head (l := s) (by rw [e]; rfl)
        rw [ht, e, collapseWS_head xs hx] at hc
        simp at hc
        rw [← hc]; exact hx
    · intro c hc
      rcases e : pyStrip s with _ | ⟨y, ys⟩
      · rw [ht, e] at hc; simp [collapseWS] at hc
      · have hne : pyStrip s ≠ [] := by rw [e]; simp
        have e2 : (pyStrip s).getLast? = some ((pyStrip s).getLast hne) :=
          List.getLast?_eq_getLast _ hne
        have ha : isPySpace ((pyStrip s).getLast hne) = false := pyStrip_getLast e2
        have h3 := collapseWS_getLast e2 ha
        rw [← ht] at h3
        rw [h3] at hc
        simp at hc
        rw [← hc]; exact ha
  rw [hstrip]
  exact collapseWS_eq_self (canonWS_collapseWS _)

/-- Appending a question mark preserves the fixed-point property. -/
theorem collapse_strip_fix_qm (s : List Char) :
    collapseWS (pyStrip (collapseWS (pyStrip s) ++ ['?'])) =
      collapseWS (pyStrip s) ++ ['?'] := by
  set t := collapseWS (pyStrip s) with ht
  have hstrip : pyStrip (t ++ ['?']) = t ++ ['?'] := by
    apply pyStrip_eq_self
    · intro c hc
      rcases e : t with _ | ⟨x, xs⟩
      · rw [e] at hc; simp at hc; rw [← hc]; decide
      · rw [e] at hc
        simp at hc
        subst hc
        rcases e2 : pyStrip s with _ | ⟨y, ys⟩
        · rw [ht, e2] at e; simp [collapseWS] at e
        · have hy : isPySpace y = false := pyStrip_head (l := s) (by rw [e2]; rfl)
          rw [ht, e2, collapseWS_head ys hy] at e
          injection e with h1 h2
          rw [← h1]; exact hy
    · intro c hc
      rw [List.getLast?_concat] at hc
      simp at hc
      rw [← hc]; decide
  rw [hstrip]
  exact collapseWS_eq_self
    (canonWS_append_nonspace (canonWS_collapseWS _) (by decide))

/-- C9: `preprocess_query` is idempotent. -/
theorem preprocess_query_idem (s : List Char) :
    preprocess_query (preprocess_query s) = preprocess_query s := by
  have hdef : ∀ u, preprocess_query u =
      (if startsQ (collapseWS (pyStrip u)) ∧ ¬ endsQm (collapseWS (pyStrip u))
       then collapseWS (pyStrip u) ++ ['?'] else collapseWS (pyStrip u)) :=
    fun u => rfl
  by_cases hq : startsQ (collapseWS (pyStrip s)) ∧ ¬ endsQm (collapseWS (pyStrip s))
  · rw [hdef s, if_pos hq, hdef, collapse_strip_fix_qm s]
    rw [if_neg]
    intro hcon
    exact hcon.2 (by simp [endsQm, List.getLast?_concat])
  · rw [hdef s, if_neg hq, hdef, collapse_strip_fix s]
    rw [if_neg hq]

/-! ### `normalize_location` (src/app.py, lines 321–357) -/

/-- ASCII model of the regex word class `\w`. -/
def isWordChar (c : Char) : Bool :=
  ('a' ≤ c && c ≤ 'z') || ('A' ≤ c && c ≤ 'Z') || ('0' ≤ c && c ≤ '9') || c = '_'

/-- Worker for Python `str.split()` (whitespace split, no empty parts). -/
def pySplitWSAux : List Char → List Char → List (List Char)
  | [], cur => if cur.isEmpty then [] else [cur.reverse]
  | c :: cs, cur =>
    if isPySpace c then
      if cur.isEmpty then pySplitWSAux cs [] else cur.reverse :: pySplitWSAux cs []
    else pySplitWSAux cs (c :: cur)

/-- Python `str.split()` with no argument. -/
def pySplitWS (l : List Char) : List (List Char) := pySplitWSAux l []

/-- Worker for Python `str.split(sep)` (keeps empty parts). -/
def pySplitOnAux (sep : Char) : List Char → List Char → List (List Char)
  | [], cur => [cur.reverse]
  | c :: cs, cur =>
    if c = sep then cur.reverse :: pySplitOnAux sep cs []
    else pySplitOnAux sep cs (c :: cur)

/-- Python `str.split(sep)` for a single-character separator. -/
def pySplitOn (sep : Char) (l : List Char) : List (List Char) :=
  pySplitOnAux sep l []

/-- One step of the duplicate-removal loop in `normalize_location`. -/
def dedupStep (acc : List (List Char)) (v : List Char) : List (List Char) :=
  if v ∈ acc then acc else acc ++ [v]

/-- The order-preserving duplicate removal at the end of `normalize_location`. -/
def pyDedup (l : List (List Char)) : List (List Char) := l.foldl dedupStep []

/-- `re.sub(r'[^\w\s]', '', location)`: keep only word and space characters. -/
def nlClean (location : List Char) : List Char :=
  location.filter (fun c => isWordChar c || isPySpace c)

/-- Original location plus, if different, its cleaned form. -/
def nlV1 (location : List Char) : List (List Char) :=
  if nlClean location ≠ location then [location, nlClean location]
  else [location]

/-- The comma-split variants: added only when the location contains a comma
and `split(',')` yields exactly two parts. -/
def nlCommaExt (location : List Char) : List (List Char) :=
  if ',' ∈ location then
    match pySplitOn ',' location with
    | [a, b] => [pyStrip a, pyStrip b]
    | _ => []
  else []

/-- The variation list built by `normalize_location` before de-duplication
(argument is the already-stripped location).  The first whitespace token and
the comma variants are added only when the location splits into more than one
whitespace token. -/
def nlVariations (location : List Char) : List (List Char) :=
  match pySplitWS location with
  | p0 :: _ :: _ => nlV1 location ++ [p0] ++ nlCommaExt location
  | _ => nlV1 location

/-- `normalize_location` from src/app.py: empty input yields `[]`; otherwise
the input is stripped and expanded into de-duplicated variations. -/
def normalize_location (location0 : List Char) : List (List Char) :=
  if location0 = [] then [] else pyDedup (nlVariations (pyStrip location0))

theorem foldl_dedupStep_prefix (acc : List (List Char)) (l : List (List Char)) :
    acc <+: l.foldl dedupStep acc := by
  induction l generalizing acc with
  | nil => exact List.prefix_refl _
  | cons v vs ih =>
    simp only [List.foldl_cons]
    refine List.IsPrefix.trans ?_ (ih (dedupStep acc v))
    unfold dedupStep
    by_cases h : v ∈ acc
    · simp [h]
    · simp only [h, if_false]
      exact List.prefix_append acc [v]

theorem mem_foldl_dedupStep (v : List Char) (acc l : List (List Char)) :
    v ∈ l.foldl dedupStep acc ↔ v ∈ acc ∨ v ∈ l := by
  induction l generalizing acc with
  | nil => simp
  | cons w ws ih =>
    simp only [List.foldl_cons, ih]
    unfold dedupStep
    by_cases h : w ∈ acc
    · simp only [h, if_true, List.mem_cons]
      constructor
      · rintro (h1 | h1)
        · exact Or.inl h1
        · exact Or.inr (Or.inr h1)
      · rintro (h1 | h1 | h1)
        · exact Or.inl h1
        · exact Or.inl (h1 ▸ h)
        · exact Or.inr h1
    · simp only [h, if_false, List.mem_append, List.mem_singleton, List.mem_cons]
      tauto

theorem nodup_foldl_dedupStep (l : List (List Char)) (acc : List (List Char))
    (h : acc.Nodup) : (l.foldl dedupStep acc).Nodup := by
  induction l generalizing acc with
  | nil => exact h
  | cons w ws ih =>
    simp only [List.foldl_cons]
    apply ih
    unfold dedupStep
    by_cases hw : w ∈ acc
    · simpa [hw] using h
    · simp only [hw, if_false]
      rw [List.nodup_append]
      exact ⟨h, List.nodup_singleton w, fun a ha => by
        simp only [List.mem_singleton]
        intro e; exact hw (e ▸ ha)⟩

theorem pyDedup_cons_head (x : List Char) (xs : List (List Char)) :
    ∃ ext, pyDedup (x :: xs) = x :: ext := by
  have h1 : dedupStep [] x = [x] := by simp [dedupStep]
  obtain ⟨t, ht⟩ := foldl_dedupStep_prefix [x] xs
  unfold pyDedup
  simp only [List.foldl_cons, h1]
  exact ⟨t, by rw [← ht]; rfl⟩

theorem pySplitOnAux_no_sep (sep : Char) :
    ∀ (l cur : List Char), sep ∉ l →
      pySplitOnAux sep l cur = [cur.reverse ++ l] := by
  intro l
  induction l with
  | nil => intro cur _; simp [pySplitOnAux]
  | cons c cs ih =>
    intro cur h
    have hc : ¬ c = sep := fun e => h (e ▸ List.mem_cons_self c cs)
    simp only [pySplitOnAux, if_neg hc]
    rw [ih (c :: cur) (fun hm => h (List.mem_cons_of_mem c hm))]
    simp

theorem pySplitOn_no_sep (sep : Char) (l : List Char) (h : sep ∉ l) :
    pySplitOn sep l = [l] := by
  unfold pySplitOn
  rw [pySplitOnAux_no_sep sep l [] h]
  rfl

theorem nlV1_head (loc : List Char) : ∃ t, nlV1 loc = loc :: t := by
  unfold nlV1
  split
  · exact ⟨_, rfl⟩
  · exact ⟨_, rfl⟩

theorem nlVariations_head (loc : List Char) : ∃ t, nlVariations loc = loc :: t := by
  unfold nlVariations
  obtain ⟨t, ht⟩ := nlV1_head loc
  rcases e : pySplitWS loc with _ | ⟨p0, tl⟩
  · simp only [e]; exact ⟨t, ht⟩
  · cases tl with
    | nil => simp only [e]; exact ⟨t, ht⟩
    | cons p1 tl2 =>
      simp only [e]
      exact ⟨t ++ p0 :: nlCommaExt loc, by rw [ht]; simp⟩

theorem nlVariations_comma (loc a b : List Char)
    (hparts : 2 ≤ (pySplitWS loc).length)
    (hsplit : pySplitOn ',' loc = [a, b]) :
    pyStrip a ∈ nlVariations loc ∧ pyStrip b ∈ nlVariations loc := by
  have hcomma : ',' ∈ loc := by
    by_contra hc
    have hlen := congrArg List.length hsplit
    rw [pySplitOn_no_sep ',' loc hc] at hlen
    simp at hlen
  have hext : nlCommaExt loc = [pyStrip a, pyStrip b] := by
    unfold nlCommaExt
    rw [if_pos hcomma, hsplit]
  unfold nlVariations
  rcases e : pySplitWS loc with _ | ⟨p0, tl⟩
  · rw [e] at hparts; simp at hparts
  · rcases tl with _ | ⟨p1, tl2⟩
    · rw [e] at hparts; simp at hparts
    · simp [e, hext]

/-- C4 as stated is false: the output's first element is the *stripped*
input (not the input itself), and a one-comma location with no internal
whitespace never gets its comma-split variants. -/
theorem normalize_location_claim_cex :
    (normalize_location (" Paris ".toList)).head? ≠ some (" Paris ".toList) ∧
    (pySplitOn ',' ("Paris,France".toList)).length = 2 ∧
    "Paris".toList ∉ normalize_location ("Paris,France".toList) := by
  refine ⟨by decide, by decide, by decide⟩

/-- C4 (amended): for nonempty input the first output element is the stripped
input, the output has no duplicates, and when the stripped input has at least
two whitespace-separated tokens and exactly one comma, both trimmed comma
parts appear among the variants. -/
theorem normalize_location_amended (L : List Char) (hL : L ≠ []) :
    (normalize_location L).head? = some (pyStrip L) ∧
    (normalize_location L).Nodup ∧
    (∀ a b, 2 ≤ (pySplitWS (pyStrip L)).length →
      pySplitOn ',' (pyStrip L) = [a, b] →
      pyStrip a ∈ normalize_location L ∧ pyStrip b ∈ normalize_location L) := by
  refine ⟨?_, ?_, ?_⟩
  · unfold normalize_location
    rw [if_neg hL]
    obtain ⟨t, ht⟩ := nlVariations_head (pyStrip L)
    rw [ht]
    obtain ⟨ext, hext⟩ := pyDedup_cons_head _ t
    rw [hext]
    rfl
  · unfold normalize_location
    split
    · simp
    · exact nodup_foldl_dedupStep _ _ (by simp)
  · intro a b h1 h2
    have hm := nlVariations_comma (pyStrip L) a b h1 h2
    unfold normalize_location
    rw [if_neg hL]
    unfold pyDedup
    rw [mem_foldl_dedupStep, mem_foldl_dedupStep]
    exact ⟨Or.inr hm.1, Or.inr hm.2⟩

/-- Concrete instantiation of the amended C4 at "Paris, France". -/
theorem normalize_location_amended_witness :
    (normalize_location ("Paris, France".toList)).head? =
      some ("Paris, France".toList) ∧
    "Paris".toList ∈ normalize_location ("Paris, France".toList) ∧
    "France".toList ∈ normalize_location ("Paris, France".toList) := by
  have h := normalize_location_amended ("Paris, France".toList) (by decide)
  have hs : pyStrip ("Paris, France".toList) = "Paris, France".toList := by decide
  have hc := h.2.2 ("Paris".toList) (" France".toList)
    (by rw [hs]; decide) (by rw [hs]; decide)
  refine ⟨by rw [h.1, hs], ?_, ?_⟩
  · have := hc.1
    rwa [show pyStrip ("Paris".toList) = "Paris".toList from by decide] at this
  · have := hc.2
    rwa [show pyStrip (" France".toList) = "France".toList from by decide] at this

/-! ### JSON values and Python exception flow -/

/-- JSON-shaped Python values flowing through the pipeline.  Numbers are
modelled as rationals (JSON numbers are finite decimals). -/
inductive JValue where
  | null
  | bool (b : Bool)
  | num (q : ℚ)
  | str (s : List Char)
  | arr (xs : List JValue)
  | obj (fields : List (List Char × JValue))

/-- The Python exception classes relevant to the pipeline. -/
inductive ErrKind where
  | keyError
  | indexError
  | typeError
  | valueError
  | jsonDecodeError
  | attributeError
  | requestError
  deriving DecidableEq, Repr

/-- A raised Python exception: its class and its `str(e)` rendering. -/
structure PyErr where
  kind : ErrKind
  msg : List Char
  deriving DecidableEq, Repr

/-- The apostrophe character (used by `str(KeyError(...))`). -/
def quoteChar : Char := Char.ofNat 39

/-- First-match key lookup in a JSON object. -/
def jLookup : List (List Char × JValue) → List Char → Option JValue
  | [], _ => none
  | (k, v) :: rest, key => if k = key then some v else jLookup rest key

/-- Python subscript `data[k]` for a string key `k`. -/
def jSubS : JValue → List Char → Except PyErr JValue
  | .obj fields, k =>
    match jLookup fields k with
    | some v => .ok v
    | none => .error ⟨.keyError, quoteChar :: k ++ [quoteChar]⟩
  | .arr _, _ =>
    .error ⟨.typeError, "list indices must be integers or slices, not str".toList⟩
  | _, _ =>
    .error ⟨.typeError, "object is not subscriptable".toList⟩

/-- Python subscript `data[0]`. -/
def jSub0 : JValue → Except PyErr JValue
  | .arr [] => .error ⟨.indexError, "list index out of range".toList⟩
  | .arr (x :: _) => .ok x
  | .obj _ => .error ⟨.keyError, "0".toList⟩
  | .str [] => .error ⟨.indexError, "string index out of range".toList⟩
  | .str (c :: _) => .ok (.str [c])
  | _ => .error ⟨.typeError, "object is not subscriptable".toList⟩

/-- Floor of a rational, written directly over the numerator and denominator
so that it evaluates inside the kernel. -/
def ratFloor (q : ℚ) : Int := Int.fdiv q.num (q.den : Int)

/-- Fractional decimal digits of a rational in `[0, 1)`, fuel-bounded. -/
def fracDigits : Nat → ℚ → List Char
  | 0, _ => []
  | fuel + 1, q =>
    if q = 0 then []
    else
      let d := (ratFloor (q * 10)).toNat
      Char.ofNat (48 + d % 10) :: fracDigits fuel (q * 10 - (ratFloor (q * 10) : ℚ))

/-- Decimal rendering of a nonnegative rational, as Python `str()` renders
the numbers appearing in provider payloads. -/
def pyStrNumAbs (q : ℚ) : List Char :=
  let ds := fracDigits 32 (q - (ratFloor q : ℚ))
  Nat.toDigits 10 (ratFloor q).toNat ++ (if ds.isEmpty then [] else '.' :: ds)

/-- Python `str()` of a number. -/
def pyStrNum (q : ℚ) : List Char :=
  if q < 0 then '-' :: pyStrNumAbs (-q) else pyStrNumAbs q

mutual

/-- Python `repr()` of a JSON-shaped value. -/
def jRepr : JValue → List Char
  | .null => "None".toList
  | .bool true => "True".toList
  | .bool false => "False".toList
  | .num q => pyStrNum q
  | .str s => quoteChar :: s ++ [quoteChar]
  | .arr xs => '[' :: jReprList xs ++ [']']
  | .obj fs => '\x7b' :: jReprFields fs ++ ['\x7d']

/-- `repr` of list elements, comma separated. -/
def jReprList : List JValue → List Char
  | [] => []
  | [x] => jRepr x
  | x :: xs => jRepr x ++ ", ".toList ++ jReprList xs

/-- `repr` of dict items, comma separated. -/
def jReprFields : List (List Char × JValue) → List Char
  | [] => []
  | [(k, v)] => quoteChar :: k ++ quoteChar :: ':' :: ' ' :: jRepr v
  | (k, v) :: fs =>
    quoteChar :: k ++ quoteChar :: ':' :: ' ' :: jRepr v ++ ", ".toList ++ jReprFields fs

end

/-- Python `str()` of a value, as interpolated by an f-string. -/
def pyStrAny : JValue → List Char
  | .str s => s
  | v => jRepr v

/-- Python truthiness of a JSON-shaped value. -/
def pyTruthy : JValue → Bool
  | .null => false
  | .bool b => b
  | .num q => q ≠ 0
  | .str s => !s.isEmpty
  | .arr xs => !xs.isEmpty
  | .obj fs => !fs.isEmpty

/-! ### `format_weather_data` (src/app.py, lines 506–527) -/

/-- Temperature unit chosen by `format_weather_data`. -/
def unitsTemp (units : List Char) : List Char :=
  if units = "metric".toList then "°C".toList else "°F".toList

/-- Wind-speed unit chosen by `format_weather_data`. -/
def unitsWind (units : List Char) : List Char :=
  if units = "metric".toList then "m/s".toList else "mph".toList

/-- The field extraction performed by `format_weather_data`, in source order;
any raised subscript error aborts the chain. -/
def fwdExtract (data : JValue) :
    Except PyErr (JValue × JValue × JValue × JValue × JValue × JValue × JValue) := do
  let city ← jSubS data ("name".toList)
  let sys ← jSubS data ("sys".toList)
  let country ← jSubS sys ("country".toList)
  let mainA ← jSubS data ("main".toList)
  let temp ← jSubS mainA ("temp".toList)
  let mainB ← jSubS data ("main".toList)
  let feels ← jSubS mainB ("feels_like".toList)
  let weather ← jSubS data ("weather".toList)
  let w0 ← jSub0 weather
  let descr ← jSubS w0 ("description".toList)
  let mainC ← jSubS data ("main".toList)
  let hum ← jSubS mainC ("humidity".toList)
  let wind ← jSubS data ("wind".toList)
  let speed ← jSubS wind ("speed".toList)
  return (city, country, temp, feels, descr, hum, speed)

/-- The exact f-string rendered by `format_weather_data` on success. -/
def weatherTemplate (city country temp feels descr hum speed : JValue)
    (units : List Char) : List Char :=
  "Weather in ".toList ++ pyStrAny city ++ ", ".toList ++ pyStrAny country ++
  ": ".toList ++ pyStrAny descr ++ ". Temperature: ".toList ++ pyStrAny temp ++
  unitsTemp units ++ " (feels like ".toList ++ pyStrAny feels ++ unitsTemp units ++
  "). Humidity: ".toList ++ pyStrAny hum ++ "%. Wind speed: ".toList ++
  pyStrAny speed ++ [' '] ++ unitsWind units ++ ".".toList

/-- `format_weather_data`: renders the template, catching only `KeyError`. -/
def format_weather_data (data : JValue) (units : List Char) :
    Except PyErr (List Char) :=
  match fwdExtract data with
  | .ok (city, country, temp, feels, descr, hum, speed) =>
    .ok (weatherTemplate city country temp feels descr hum speed units)
  | .error e =>
    if e.kind = .keyError then
      .ok ("Error parsing weather data: ".toList ++ e.msg)
    else .error e

/-- Error-kind propagation through `Except.bind`. -/
theorem errKinds_bind {α β : Type} {K : PyErr → Prop} {x : Except PyErr α}
    {f : α → Except PyErr β}
    (hx : ∀ e, x = .error e → K e) (hf : ∀ a, ∀ e, f a = .error e → K e) :
    ∀ e, (x >>= f) = .error e → K e := by
  intro e h
  cases x with
  | error e' =>
    have : Except.error e' = Except.error (ε := PyErr) (α := β) e := h
    exact hx e (by injection this with h2; rw [h2])
  | ok a => exact hf a e h

theorem errKinds_pure {α : Type} {K : PyErr → Prop} (a : α) :
    ∀ e, (pure a : Except PyErr α) = .error e → K e := by
  intro e h
  exact absurd h (by simp [pure, Except.pure])

/-- Subscripting with a string key raises only `KeyError` or `TypeError`. -/
theorem jSubS_error (j : JValue) (k : List Char) :
    ∀ e, jSubS j k = .error e →
      e.kind = .keyError ∨ e.kind = .indexError ∨ e.kind = .typeError := by
  intro e h
  cases j <;> simp only [jSubS] at h
  · injection h with h2; rw [← h2]; right; right; rfl
  · injection h with h2; rw [← h2]; right; right; rfl
  · injection h with h2; rw [← h2]; right; right; rfl
  · injection h with h2; rw [← h2]; right; right; rfl
  · injection h with h2; rw [← h2]; right; right; rfl
  · rename_i fields
    cases hl : jLookup fields k <;> rw [hl] at h
    · injection h with h2; rw [← h2]; left; rfl
    · simp at h

/-- Subscripting with index 0 raises only `IndexError`, `KeyError` or
`TypeError`. -/
theorem jSub0_error (j : JValue) :
    ∀ e, jSub0 j = .error e →
      e.kind = .keyError ∨ e.kind = .indexError ∨ e.kind = .typeError := by
  intro e h
  cases j <;> simp only [jSub0] at h
  · injection h with h2; rw [← h2]; right; right; rfl
  · injection h with h2; rw [← h2]; right; right; rfl
  · injection h with h2; rw [← h2]; right; right; rfl
  · rename_i s
    cases s with
    | nil => injection h with h2; rw [← h2]; right; left; rfl
    | cons c cs => simp at h
  · rename_i xs
    cases xs with
    | nil => injection h with h2; rw [← h2]; right; left; rfl
    | cons x rest => simp at h
  · injection h with h2; rw [← h2]; left; rfl

/-- Every abort of the extraction chain is a `KeyError`, `IndexError` or
`TypeError`. -/
theorem fwdExtract_error_kind (data : JValue) :
    ∀ e, fwdExtract data = .error e →
      e.kind = .keyError ∨ e.kind = .indexError ∨ e.kind = .typeError := by
  unfold fwdExtract
  refine errKinds_bind (jSubS_error _ _) ?_
  intro city
  refine errKinds_bind (jSubS_error _ _) ?_
  intro sys
  refine errKinds_bind (jSubS_error _ _) ?_
  intro country
  refine errKinds_bind (jSubS_error _ _) ?_
  intro mainA
  refine errKinds_bind (jSubS_error _ _) ?_
  intro temp
  refine errKinds_bind (jSubS_error _ _) ?_
  intro mainB
  refine errKinds_bind (jSubS_error _ _) ?_
  intro feels
  refine errKinds_bind (jSubS_error _ _) ?_
  intro weather
  refine errKinds_bind (jSub0_error _) ?_
  intro w0
  refine errKinds_bind (jSubS_error _ _) ?_
  intro descr
  refine errKinds_bind (jSubS_error _ _) ?_
  intro mainC
  refine errKinds_bind (jSubS_error _ _) ?_
  intro hum
  refine errKinds_bind (jSubS_error _ _) ?_
  intro wind
  refine errKinds_bind (jSubS_error _ _) ?_
  intro speed
  exact errKinds_pure _

/-- A payload whose `weather` field is an empty array: field extraction
raises an uncaught `IndexError`. -/
def fwdCexPayload : JValue :=
  .obj [("name".toList, .str ("London".toList)),
        ("sys".toList, .obj [("country".toList, .str ("GB".toList))]),
        ("main".toList, .obj [("temp".toList, .num 15),
                              ("feels_like".toList, .num 14),
                              ("humidity".toList, .num 76)]),
        ("weather".toList, .arr []),
        ("wind".toList, .obj [("speed".toList, .num 4)])]

/-- C3 as stated is false: a payload whose `weather` list is empty makes
`format_weather_data` raise an uncaught `IndexError` instead of returning
either of the two documented strings. -/
theorem format_weather_data_claim_cex :
    format_weather_data fwdCexPayload ("metric".toList) =
      .error ⟨.indexError, "list index out of range".toList⟩ := by
  rfl

/-- C3 (amended): when all expected fields extract, the output is exactly the
template with "°C"/"m/s" for "metric" and "°F"/"mph" otherwise; a missing
object key yields an "Error parsing weather data:"-prefixed string; any
uncaught exception is an `IndexError` or `TypeError` arising from a payload
whose structure (not just a missing key) is wrong. -/
theorem format_weather_data_amended (data : JValue) (units : List Char) :
    (∀ city country temp feels descr hum speed,
        fwdExtract data = .ok (city, country, temp, feels, descr, hum, speed) →
        format_weather_data data units =
          .ok (weatherTemplate city country temp feels descr hum speed units)) ∧
    (∀ e, fwdExtract data = .error e → e.kind = .keyError →
        format_weather_data data units =
          .ok ("Error parsing weather data: ".toList ++ e.msg)) ∧
    (∀ e, format_weather_data data units = .error e →
        e.kind = .indexError ∨ e.kind = .typeError) ∧
    unitsTemp units = (if units = "metric".toList then "°C".toList else "°F".toList) ∧
    unitsWind units = (if units = "metric".toList then "m/s".toList else "mph".toList) := by
  refine ⟨?_, ?_, ?_, rfl, rfl⟩
  · intro city country temp feels descr hum speed h
    unfold format_weather_data
    rw [h]
  · intro e h hk
    unfold format_weather_data
    rw [h]
    simp [hk]
  · intro e h
    unfold format_weather_data at h
    cases hx : fwdExtract data with
    | ok v =>
      rw [hx] at h
      obtain ⟨city, country, temp, feels, descr, hum, speed⟩ := v
      simp at h
    | error e' =>
      rw [hx] at h
      by_cases hk : e'.kind = .keyError
      · simp [hk] at h
      · simp [hk] at h
        subst h
        rcases fwdExtract_error_kind data e' hx with h1 | h1 | h1
        · exact absurd h1 hk
        · exact Or.inl h1
        · exact Or.inr h1

/-- The spec's own example payload, fully populated. -/
def fwdOkPayload : JValue :=
  .obj [("name".toList, .str ("London".toList)),
        ("sys".toList, .obj [("country".toList, .str ("GB".toList))]),
        ("main".toList, .obj [("temp".toList, .num (31/2)),
                              ("feels_like".toList, .num (74/5)),
                              ("humidity".toList, .num 76)]),
        ("weather".toList, .arr [.obj [("description".toList,
                                        .str ("light rain".toList))]]),
        ("wind".toList, .obj [("speed".toList, .num (41/10))])]

/-- Concrete instantiation of the amended C3 on the fully populated payload. -/
theorem format_weather_data_amended_witness :
    format_weather_data fwdOkPayload ("metric".toList) =
      .ok (weatherTemplate (.str ("London".toList)) (.str ("GB".toList))
        (.num (31/2)) (.num (74/5)) (.str ("light rain".toList)) (.num 76)
        (.num (41/10)) ("metric".toList)) :=
  (format_weather_data_amended fwdOkPayload ("metric".toList)).1
    _ _ _ _ _ _ _ (by rfl)

/-! ### `get_clothing_recommendation` (src/app.py, lines 529–675) -/

/-- Numeric coercion performed implicitly by Python comparisons: numbers and
booleans compare against integers, everything else raises `TypeError`. -/
def jAsNum : JValue → Except PyErr ℚ
  | .num q => .ok q
  | .bool b => .ok (if b then 1 else 0)
  | _ => .error ⟨.typeError, "comparison not supported between instances".toList⟩

/-- Python `.lower()`: only strings have the attribute. -/
def pyLowerJ : JValue → Except PyErr (List Char)
  | .str s => .ok (lowerStr s)
  | _ => .error ⟨.attributeError, "object has no attribute lower".toList⟩

/-- Catch-all `except Exception` around a computation. -/
def pyCatchAll {α : Type} (body : Except PyErr α) (handler : PyErr → α) : α :=
  match body with
  | .ok a => a
  | .error e => handler e

/-- `except (K1, K2, ...)`: catch only the listed exception classes. -/
def pyCatchKinds {α : Type} (ks : List ErrKind) (body : Except PyErr α)
    (handler : PyErr → α) : Except PyErr α :=
  match body with
  | .ok a => .ok a
  | .error e => if e.kind ∈ ks then .ok (handler e) else .error e

/-- Temperature-tier items for the current conditions (lines 551–571). -/
def tempRecsFull (t : ℚ) : List (List Char) :=
  if t < 0 then
    ["heavy winter coat".toList, "hat, scarf, and gloves".toList,
     "thermal layers".toList, "insulated boots".toList]
  else if t < 10 then
    ["winter coat or heavy jacket".toList, "hat and gloves".toList,
     "warm layers".toList]
  else if t < 15 then
    ["light jacket or heavy sweater".toList, "long sleeves".toList]
  else if t < 20 then
    ["light sweater or long-sleeved shirt".toList]
  else if t < 25 then
    ["t-shirt or light top".toList, "light pants or jeans".toList]
  else
    ["light, breathable clothing".toList, "shorts or light pants".toList,
     "sun protection".toList]

/-- Condition-text items for the current conditions (lines 574–586). -/
def condRecsFull (t : ℚ) (d : List Char) : List (List Char) :=
  if containsSub d ("rain".toList) || containsSub d ("drizzle".toList) ||
      containsSub d ("shower".toList) then
    ["raincoat or umbrella".toList, "waterproof shoes".toList]
  else if containsSub d ("snow".toList) || containsSub d ("sleet".toList) then
    ["waterproof boots".toList, "warm, waterproof jacket".toList]
  else if containsSub d ("thunderstorm".toList) then
    ["stay indoors if possible".toList,
     "raincoat and umbrella if you must go out".toList]
  else if containsSub d ("clear".toList) && decide (t > 20) then
    ["sunglasses".toList, "sunscreen".toList, "hat for sun protection".toList]
  else []

/-- Wind item for the current conditions (lines 589–590). -/
def windRecsFull (w : ℚ) : List (List Char) :=
  if w > 10 then ["windbreaker or wind-resistant jacket".toList] else []

/-- The complete "For now" recommendation list, in source append order. -/
def currentRecsList (t : ℚ) (d : List Char) (w : ℚ) : List (List Char) :=
  tempRecsFull t ++ condRecsFull t d ++ windRecsFull w

/-- Reduced temperature tiers used per forecast block (lines 628–643). -/
def tempRecsBlock (t : ℚ) : List (List Char) :=
  if t < 0 then
    ["heavy winter coat".toList, "hat, scarf, and gloves".toList,
     "thermal layers".toList]
  else if t < 10 then
    ["winter coat or heavy jacket".toList, "hat and gloves".toList]
  else if t < 15 then
    ["light jacket or heavy sweater".toList]
  else if t < 20 then
    ["light sweater or long-sleeved shirt".toList]
  else if t < 25 then
    ["t-shirt or light top".toList]
  else
    ["light, breathable clothing".toList, "sun protection".toList]

/-- Reduced condition rules used per forecast block (lines 646–651). -/
def condRecsBlock (t : ℚ) (d : List Char) : List (List Char) :=
  if containsSub d ("rain".toList) || containsSub d ("drizzle".toList) then
    ["raincoat or umbrella".toList]
  else if containsSub d ("snow".toList) then
    ["waterproof boots".toList]
  else if containsSub d ("clear".toList) && decide (t > 20) then
    ["sunglasses".toList]
  else []

/-- Wind rule used per forecast block (lines 654–655). -/
def windRecsBlock (w : ℚ) : List (List Char) :=
  if w > 10 then ["windbreaker".toList] else []

/-- The complete per-block recommendation list. -/
def blockRecsList (t : ℚ) (d : List Char) (w : ℚ) : List (List Char) :=
  tempRecsBlock t ++ condRecsBlock t d ++ windRecsBlock w

/-- Field extraction and rule application for the current snapshot
(lines 546–590). -/
def currentPart (wd : JValue) : Except PyErr (List (List Char)) := do
  let mainJ ← jSubS wd ("main".toList)
  let tJ ← jSubS mainJ ("temp".toList)
  let weatherJ ← jSubS wd ("weather".toList)
  let w0 ← jSub0 weatherJ
  let dJ ← jSubS w0 ("description".toList)
  let d ← pyLowerJ dJ
  let windJ ← jSubS wd ("wind".toList)
  let wJ ← jSubS windJ ("speed".toList)
  let t ← jAsNum tJ
  let w ← jAsNum wJ
  return currentRecsList t d w

/-- Field extraction and reduced rule application for one representative
forecast entry (lines 620–655). -/
def blockRecsOf (entry : JValue) : Except PyErr (List (List Char)) := do
  let mainJ ← jSubS entry ("main".toList)
  let tJ ← jSubS mainJ ("temp".toList)
  let weatherJ ← jSubS entry ("weather".toList)
  let w0 ← jSub0 weatherJ
  let dJ ← jSubS w0 ("description".toList)
  let d ← pyLowerJ dJ
  let windJ ← jSubS entry ("wind".toList)
  let wJ ← jSubS windJ ("speed".toList)
  let t ← jAsNum tJ
  let w ← jAsNum wJ
  return blockRecsList t d w

/-- The local hour of a POSIX timestamp under a fixed UTC offset `tz`
(seconds), as `datetime.fromtimestamp(ts).time().hour`. -/
def localHour (tz : Int) (ts : ℚ) : Int :=
  ((ratFloor ts + tz) % 86400) / 3600

/-- `datetime.fromtimestamp(entry["dt"]).time().hour`. -/
def entryHour (tz : Int) (entry : JValue) : Except PyErr Int := do
  let dtJ ← jSubS entry ("dt".toList)
  let dt ← jAsNum dtJ
  return localHour tz dt

/-- The grouping loop over forecast entries (lines 601–609): entries are
appended to the Morning / Afternoon / Evening block by local hour. -/
def groupBlocks (tz : Int) :
    List JValue → List JValue × List JValue × List JValue →
      Except PyErr (List JValue × List JValue × List JValue)
  | [], acc => .ok acc
  | e :: es, (m, a, ev) => do
    let h ← entryHour tz e
    if h < 12 then groupBlocks tz es (m ++ [e], a, ev)
    else if h < 18 then groupBlocks tz es (m, a ++ [e], ev)
    else groupBlocks tz es (m, a, ev ++ [e])

/-- The three time blocks in the dictionary's fixed insertion order. -/
def blockEntriesList (m a ev : List JValue) : List (List Char × List JValue) :=
  [("Morning".toList, m), ("Afternoon".toList, a), ("Evening".toList, ev)]

/-- The per-block loop (lines 612–657): skip empty blocks, and derive each
non-empty block's list from the entry at index `len // 2`. -/
def forecastRecsLoop :
    List (List Char × List JValue) →
      Except PyErr (List (List Char × List (List Char)))
  | [] => .ok []
  | (name, es) :: rest =>
    if es.isEmpty then forecastRecsLoop rest
    else do
      let recs ← blockRecsOf (es.getD (es.length / 2) .null)
      let tail ← forecastRecsLoop rest
      return (name, recs) :: tail

/-- `", ".join(items)`. -/
def joinComma : List (List Char) → List Char
  | [] => []
  | [x] => x
  | x :: y :: xs => x ++ ", ".toList ++ joinComma (y :: xs)

/-- One output line per block with a non-empty recommendation list
(lines 668–670). -/
def blockLines : List (List Char × List (List Char)) → List Char
  | [] => []
  | (name, recs) :: rest =>
    (if recs.isEmpty then []
     else "- ".toList ++ name ++ ": ".toList ++ joinComma recs ++ ".\n".toList) ++
    blockLines rest

/-- A Python value in forecast-argument position: `None`, a string (the error
text produced by a failed fetch), or the list of forecast entries. -/
inductive PySeq where
  | none
  | ofStr (s : List Char)
  | ofList (l : List JValue)

/-- Truthiness of the forecast argument. -/
def pySeqTruthy : PySeq → Bool
  | .none => false
  | .ofStr s => !s.isEmpty
  | .ofList l => !l.isEmpty

/-- Iterating the forecast argument: iterating a string yields its characters
as one-character strings. -/
def pySeqElems : PySeq → List JValue
  | .none => []
  | .ofStr s => s.map (fun c => .str [c])
  | .ofList l => l

/-- Body of the `try` in `get_clothing_recommendation`. -/
def clothingBody (tz : Int) (wd : JValue) (fc : PySeq) :
    Except PyErr (List Char) := do
  let current ← currentPart wd
  let fr ←
    if pySeqTruthy fc then do
      let (m, a, ev) ← groupBlocks tz (pySeqElems fc) ([], [], [])
      forecastRecsLoop (blockEntriesList m a ev)
    else pure []
  return "Clothing recommendations:\n\n".toList ++ "For now: ".toList ++
    joinComma current ++ ".\n\n".toList ++
    (if fr.isEmpty then []
     else "For the rest of the day:\n".toList ++ blockLines fr)

/-- `get_clothing_recommendation`: falsy weather data short-circuits; the body
runs under `except (KeyError, TypeError)`. -/
def get_clothing_recommendation (tz : Int) (wd : Option JValue) (fc : PySeq) :
    Except PyErr (List Char) :=
  match wd with
  | Option.none =>
    .ok ("I can't provide clothing recommendations without weather data.".toList)
  | some j =>
    if pyTruthy j then
      pyCatchKinds [.keyError, .typeError] (clothingBody tz j fc)
        (fun e => "Error generating clothing recommendations: ".toList ++ e.msg)
    else
      .ok ("I can't provide clothing recommendations without weather data.".toList)

/-- A description that matches none of the condition-text rules. -/
def noCondMatch (d : List Char) : Prop :=
  containsSub d ("rain".toList) = false ∧
  containsSub d ("drizzle".toList) = false ∧
  containsSub d ("shower".toList) = false ∧
  containsSub d ("snow".toList) = false ∧
  containsSub d ("sleet".toList) = false ∧
  containsSub d ("thunderstorm".toList) = false ∧
  containsSub d ("clear".toList) = false

/-- C6: at 5 degrees with no condition match the "For now" list has the
winter-coat and hat-and-gloves items and no sunglasses; at 22 degrees with
"clear sky" it has sunglasses and sunscreen; wind above 10 always adds the
windbreaker item. -/
theorem clothing_current_rules :
    (∀ d w, noCondMatch d →
      "winter coat or heavy jacket".toList ∈ currentRecsList 5 d w ∧
      "hat and gloves".toList ∈ currentRecsList 5 d w ∧
      "sunglasses".toList ∉ currentRecsList 5 d w) ∧
    (∀ w, "sunglasses".toList ∈ currentRecsList 22 ("clear sky".toList) w ∧
      "sunscreen".toList ∈ currentRecsList 22 ("clear sky".toList) w) ∧
    (∀ t d w, w > 10 →
      "windbreaker or wind-resistant jacket".toList ∈ currentRecsList t d w) := by
  refine ⟨?_, ?_, ?_⟩
  · intro d w hd
    obtain ⟨h1, h2, h3, h4, h5, h6, h7⟩ := hd
    have ht : tempRecsFull 5 =
        ["winter coat or heavy jacket".toList, "hat and gloves".toList,
         "warm layers".toList] := by
      unfold tempRecsFull
      norm_num
    have hc : condRecsFull 5 d = [] := by
      unfold condRecsFull
      rw [h1, h2, h3, h4, h5, h6, h7]
      simp
    unfold currentRecsList
    rw [ht, hc]
    refine ⟨?_, ?_, ?_⟩
    · exact List.mem_append.mpr (Or.inl (List.mem_append.mpr (Or.inl (by decide))))
    · exact List.mem_append.mpr (Or.inl (List.mem_append.mpr (Or.inl (by decide))))
    · intro hm
      rcases List.mem_append.mp hm with hm1 | hm2
      · rcases List.mem_append.mp hm1 with hm3 | hm4
        · revert hm3; decide
        · simp at hm4
      · unfold windRecsFull at hm2
        by_cases hw : w > 10
        · rw [if_pos hw] at hm2
          revert hm2; decide
        · rw [if_neg hw] at hm2
          simp at hm2
  · intro w
    have hc : condRecsFull 22 ("clear sky".toList) =
        ["sunglasses".toList, "sunscreen".toList,
         "hat for sun protection".toList] := by
      unfold condRecsFull
      rw [show containsSub ("clear sky".toList) ("rain".toList) = false from by decide,
        show containsSub ("clear sky".toList) ("drizzle".toList) = false from by decide,
        show containsSub ("clear sky".toList) ("shower".toList) = false from by decide,
        show containsSub ("clear sky".toList) ("snow".toList) = false from by decide,
        show containsSub ("clear sky".toList) ("sleet".toList) = false from by decide,
        show containsSub ("clear sky".toList) ("thunderstorm".toList) = false from by decide,
        show containsSub ("clear sky".toList) ("clear".toList) = true from by decide]
      norm_num
    unfold currentRecsList
    rw [hc]
    constructor
    · exact List.mem_append.mpr (Or.inl (List.mem_append.mpr (Or.inr (by decide))))
    · exact List.mem_append.mpr (Or.inl (List.mem_append.mpr (Or.inr (by decide))))
  · intro t d w hw
    have hwind : windRecsFull w = ["windbreaker or wind-resistant jacket".toList] := by
      unfold windRecsFull
      rw [if_pos hw]
    unfold currentRecsList
    rw [hwind]
    exact List.mem_append.mpr (Or.inr (by decide))

/-- Concrete instantiation of C6's three rules. -/
theorem clothing_current_rules_witness :
    "winter coat or heavy jacket".toList ∈
      currentRecsList 5 ("cloudy".toList) 0 ∧
    "sunglasses".toList ∈ currentRecsList 22 ("clear sky".toList) 0 ∧
    "windbreaker or wind-resistant jacket".toList ∈
      currentRecsList 15 ("cloudy".toList) 11 := by
  refine ⟨(clothing_current_rules.1 ("cloudy".toList) 0 ?_).1,
    (clothing_current_rules.2.1 0).1,
    clothing_current_rules.2.2 15 ("cloudy".toList) 11 (by norm_num)⟩
  unfold noCondMatch
  decide

/-- Entry hour below a bound, as a filter predicate. -/
def hourLt (tz : Int) (b : Int) (e : JValue) : Bool :=
  match entryHour tz e with
  | .ok h => decide (h < b)
  | .error _ => false

/-- Entry hour at or above a bound, as a filter predicate. -/
def hourGe (tz : Int) (b : Int) (e : JValue) : Bool :=
  match entryHour tz e with
  | .ok h => decide (b ≤ h)
  | .error _ => false

theorem groupBlocks_spec (tz : Int) :
    ∀ (entries : List JValue) (m0 a0 e0 m a ev : List JValue),
      groupBlocks tz entries (m0, a0, e0) = .ok (m, a, ev) →
      m = m0 ++ entries.filter (hourLt tz 12) ∧
      a = a0 ++ entries.filter (fun e => hourGe tz 12 e && hourLt tz 18 e) ∧
      ev = e0 ++ entries.filter (hourGe tz 18) := by
  intro entries
  induction entries with
  | nil =>
    intro m0 a0 e0 m a ev h
    simp only [groupBlocks] at h
    injection h with h2
    injection h2 with hm h3
    injection h3 with ha he
    subst hm; subst ha; subst he
    simp
  | cons x xs ih =>
    intro m0 a0 e0 m a ev h
    simp only [groupBlocks] at h
    cases hh : entryHour tz x with
    | error e =>
      rw [hh] at h
      exact absurd h (by simp [Bind.bind, Except.bind])
    | ok hv =>
      rw [hh] at h
      simp only [Bind.bind, Except.bind] at h
      have hlt : hourLt tz 12 x = decide (hv < 12) := by
        unfold hourLt; rw [hh]
      have hlt18 : hourLt tz 18 x = decide (hv < 18) := by
        unfold hourLt; rw [hh]
      have hge12 : hourGe tz 12 x = decide (12 ≤ hv) := by
        unfold hourGe; rw [hh]
      have hge18 : hourGe tz 18 x = decide (18 ≤ hv) := by
        unfold hourGe; rw [hh]
      by_cases h12 : hv < 12
      · rw [if_pos h12] at h
        obtain ⟨hm, ha, he⟩ := ih _ _ _ _ _ _ h
        refine ⟨?_, ?_, ?_⟩
        · rw [hm, List.filter_cons]
          simp [hlt, h12]
        · rw [ha, List.filter_cons]
          simp [hge12, show ¬ (12 ≤ hv) from by omega]
        · rw [he, List.filter_cons]
          simp [hge18, show ¬ (18 ≤ hv) from by omega]
      · rw [if_neg h12] at h
        by_cases h18 : hv < 18
        · rw [if_pos h18] at h
          obtain ⟨hm, ha, he⟩ := ih _ _ _ _ _ _ h
          refine ⟨?_, ?_, ?_⟩
          · rw [hm, List.filter_cons]
            simp [hlt, h12]
          · rw [ha, List.filter_cons]
            simp [hge12, hlt18, show 12 ≤ hv from by omega, h18]
          · rw [he, List.filter_cons]
            simp [hge18, show ¬ (18 ≤ hv) from by omega]
        · rw [if_neg h18] at h
          obtain ⟨hm, ha, he⟩ := ih _ _ _ _ _ _ h
          refine ⟨?_, ?_, ?_⟩
          · rw [hm, List.filter_cons]
            simp [hlt, h12]
          · rw [ha, List.filter_cons]
            simp [hge12, hlt18, h18]
          · rw [he, List.filter_cons]
            simp [hge18, show 18 ≤ hv from by omega]

/-- Effectful map over a list in the `Except` monad. -/
def exceptMapM {α β : Type} (f : α → Except PyErr β) : List α → Except PyErr (List β)
  | [] => .ok []
  | x :: xs => do
    let b ← f x
    let bs ← exceptMapM f xs
    return b :: bs

/-- The middle-representative recommendation for one block. -/
def middleBlockRec (p : List Char × List JValue) :
    Except PyErr (List Char × List (List Char)) := do
  let recs ← blockRecsOf (p.2.getD (p.2.length / 2) .null)
  return (p.1, recs)

theorem except_bind_ok {α β : Type} (a : α) (f : α → Except PyErr β) :
    (Except.ok a >>= f) = f a := rfl

theorem except_bind_err {α β : Type} (e : PyErr) (f : α → Except PyErr β) :
    ((Except.error e : Except PyErr α) >>= f) = .error e := rfl

/-- The per-block loop equals a filter of non-empty blocks followed by a
middle-representative map. -/
theorem forecastRecsLoop_spec :
    ∀ (bl : List (List Char × List JValue)),
      forecastRecsLoop bl =
        exceptMapM middleBlockRec (bl.filter (fun p => !p.2.isEmpty)) := by
  intro bl
  induction bl with
  | nil => rfl
  | cons p rest ih =>
    obtain ⟨name, es⟩ := p
    cases es with
    | nil => exact ih
    | cons c cs =>
      show (blockRecsOf ((c :: cs).getD ((c :: cs).length / 2) .null) >>= fun recs =>
          forecastRecsLoop rest >>= fun tail => pure ((name, recs) :: tail)) =
        (middleBlockRec (name, c :: cs) >>= fun b =>
          exceptMapM middleBlockRec (rest.filter (fun p => !p.2.isEmpty)) >>=
            fun bs => pure (b :: bs))
      cases hr : blockRecsOf ((c :: cs).getD ((c :: cs).length / 2) .null) with
      | error e =>
        rw [except_bind_err]
        have hm : middleBlockRec (name, c :: cs) = .error e := by
          show (blockRecsOf ((c :: cs).getD ((c :: cs).length / 2) .null) >>=
            fun recs => pure ((name, recs))) = .error e
          rw [hr, except_bind_err]
        rw [hm, except_bind_err]
      | ok recs =>
        rw [except_bind_ok, ih]
        have hm : middleBlockRec (name, c :: cs) = .ok (name, recs) := by
          show (blockRecsOf ((c :: cs).getD ((c :: cs).length / 2) .null) >>=
            fun recs => pure ((name, recs))) = .ok (name, recs)
          rw [hr, except_bind_ok]
          rfl
        rw [hm, except_bind_ok]

/-- C7: the grouping loop partitions entries by local hour into Morning
(hour < 12), Afternoon (12 ≤ hour < 18) and Evening (hour ≥ 18), preserving
order; and the per-block loop, iterating the blocks in
Morning→Afternoon→Evening order, derives each non-empty block's list solely
from the entry at index `count // 2` of that block. -/
theorem clothing_forecast_blocks (tz : Int) (entries m a ev : List JValue)
    (h : groupBlocks tz entries ([], [], []) = .ok (m, a, ev)) :
    m = entries.filter (hourLt tz 12) ∧
    a = entries.filter (fun e => hourGe tz 12 e && hourLt tz 18 e) ∧
    ev = entries.filter (hourGe tz 18) ∧
    forecastRecsLoop (blockEntriesList m a ev) =
      exceptMapM middleBlockRec
        ((blockEntriesList m a ev).filter (fun p => !p.2.isEmpty)) := by
  obtain ⟨hm, ha, he⟩ := groupBlocks_spec tz entries [] [] [] m a ev h
  refine ⟨by simpa using hm, by simpa using ha, by simpa using he, ?_⟩
  exact forecastRecsLoop_spec _

/-- A fully populated forecast entry at local hour `h` (UTC offset 0). -/
def mkEntry (h : Int) (t : ℚ) : JValue :=
  .obj [("dt".toList, .num ((h * 3600 : Int) : ℚ)),
        ("main".toList, .obj [("temp".toList, .num t)]),
        ("weather".toList, .arr [.obj [("description".toList,
                                        .str ("cloudy".toList))]]),
        ("wind".toList, .obj [("speed".toList, .num 3)])]

/-- Concrete instantiation of C7 on a two-entry forecast (hours 9 and 15). -/
theorem clothing_forecast_blocks_witness :
    [mkEntry 9 12] = [mkEntry 9 12, mkEntry 15 21].filter (hourLt 0 12) ∧
    [mkEntry 15 21] = [mkEntry 9 12, mkEntry 15 21].filter
      (fun e => hourGe 0 12 e && hourLt 0 18 e) ∧
    ([] : List JValue) = [mkEntry 9 12, mkEntry 15 21].filter (hourGe 0 18) := by
  have h := clothing_forecast_blocks 0 [mkEntry 9 12, mkEntry 15 21]
    [mkEntry 9 12] [mkEntry 15 21] [] (by rfl)
  exact ⟨h.1, h.2.1, h.2.2.1⟩

/-! ### Geocoding tiers (src/app.py, lines 232–319 and 359–412) -/

/-- Oracles for the library parsing primitives the pipeline delegates to:
`re.search` patterns, `json.loads` and `float()`.  `none` models a failed
match / raised `JSONDecodeError` / raised `ValueError`. -/
structure ParseOracle where
  findJson : List Char → Option (List Char)
  jsonLoads : List Char → Option JValue
  coordsRegex : List Char → Option (List Char × List Char)
  pyFloat : List Char → Option ℚ
  locPattern : List Char → Option (List Char)
  weatherPattern : List Char → Option (List Char)

/-- Python `dict.get(k, dflt)`: the stored value (even `null`) when the key
is present, else the default; non-dicts have no `.get` attribute. -/
def jGetD : JValue → List Char → JValue → Except PyErr JValue
  | .obj fields, k, dflt => .ok ((jLookup fields k).getD dflt)
  | _, _, _ => .error ⟨.attributeError, "object has no attribute get".toList⟩

/-- Is the value JSON null (Python `None`)? -/
def jIsNull : JValue → Bool
  | .null => true
  | _ => false

/-- `float(v) if isinstance(v, str) else v`: string coordinates are coerced,
raising `ValueError` on unparseable text; other values pass through. -/
def coerceCoord (po : ParseOracle) (v : JValue) : Except PyErr JValue :=
  match v with
  | .str s =>
    match po.pyFloat s with
    | some q => .ok (.num q)
    | none => .error ⟨.valueError, "could not convert string to float".toList⟩
  | _ => .ok v

/-- The JSON branch of the inner `try` of `llm_geocode_location`: parse the
brace-delimited match (or the whole response), read both keys, coerce. -/
def llmGeoReadData (po : ParseOracle) (data : JValue) :
    Except PyErr (Option (JValue × JValue)) := do
  let lat ← jGetD data ("latitude".toList) .null
  let lon ← jGetD data ("longitude".toList) .null
  if !jIsNull lat && !jIsNull lon then do
    let lat2 ← coerceCoord po lat
    let lon2 ← coerceCoord po lon
    return some (lat2, lon2)
  else
    return none

/-- The inner `try` body (lines 264–299): JSON-substring attempt, falling
through to a whole-response parse; `none` is the fall-through to line 315. -/
def llmGeoParse (po : ParseOracle) (response : List Char) :
    Except PyErr (Option (JValue × JValue)) :=
  match po.findJson response with
  | some js =>
    match po.jsonLoads js with
    | none => .error ⟨.jsonDecodeError, "Expecting value".toList⟩
    | some data => do
      match ← llmGeoReadData po data with
      | some c => return some c
      | none =>
        -- keys missing in the matched object: fall through to parsing the
        -- whole response (line 286)
        match po.jsonLoads response with
        | none => .error ⟨.jsonDecodeError, "Expecting value".toList⟩
        | some data2 => llmGeoReadData po data2
  | none =>
    match po.jsonLoads response with
    | none => .error ⟨.jsonDecodeError, "Expecting value".toList⟩
    | some data2 => llmGeoReadData po data2

/-- The `except (JSONDecodeError, ValueError)` handler (lines 300–312):
numeric-pair regex fallback; a `ValueError` from `float` is swallowed. -/
def llmGeoRegex (po : ParseOracle) (response : List Char) :
    Option (JValue × JValue) :=
  match po.coordsRegex response with
  | some (s1, s2) =>
    match po.pyFloat s1 with
    | some q1 =>
      match po.pyFloat s2 with
      | some q2 => some (.num q1, .num q2)
      | none => none
    | none => none
  | none => none

/-- `llm_geocode_location`: empty location short-circuits; the whole body
runs under `except Exception: return None`. -/
def llm_geocode_location (po : ParseOracle) (llmCall : Except PyErr (List Char))
    (location : JValue) : Except PyErr (Option (JValue × JValue)) :=
  if pyTruthy location then
    .ok (pyCatchAll
      (do
        let response ← llmCall
        match llmGeoParse po response with
        | .ok r => pure r
        | .error e =>
          if e.kind = .jsonDecodeError ∨ e.kind = .valueError then
            pure (llmGeoRegex po response)
          else .error e)
      (fun _ => none))
  else .ok none

/-- Python `len()`. -/
def pyLen : JValue → Except PyErr Nat
  | .str s => .ok s.length
  | .arr l => .ok l.length
  | .obj f => .ok f.length
  | _ => .error ⟨.typeError, "object has no len".toList⟩

/-- One geocoding-API attempt for one variation (lines 373–406): fetch,
check for a nonempty result carrying both coordinates. -/
def apiTryVariation (apiCall : List Char → Except PyErr JValue)
    (variation : List Char) : Except PyErr (Option (JValue × JValue)) := do
  let data ← apiCall variation
  if pyTruthy data then do
    let len ← pyLen data
    if len > 0 then do
      let d0 ← jSub0 data
      let lat ← jGetD d0 ("lat".toList) .null
      let lon ← jGetD d0 ("lon".toList) .null
      if !jIsNull lat && !jIsNull lon then
        return some (lat, lon)
      else return none
    else return none
  else return none

/-- The variation loop: each attempt runs under `except Exception`, which
moves on to the next variation. -/
def apiLoop (apiCall : List Char → Except PyErr JValue) :
    List (List Char) → Option (JValue × JValue)
  | [] => none
  | v :: vs =>
    match apiTryVariation apiCall v with
    | .ok (some c) => some c
    | .ok none => apiLoop apiCall vs
    | .error _ => apiLoop apiCall vs

/-- `api_geocode_location`: falsy location or API key short-circuits; a
truthy non-string location raises from `normalize_location`'s `.strip()`
(outside any `try`). -/
def api_geocode_location (apiCall : List Char → Except PyErr JValue)
    (location : JValue) (apiKey : List Char) :
    Except PyErr (Option (JValue × JValue)) :=
  if !pyTruthy location || apiKey.isEmpty then .ok none
  else
    match location with
    | .str s => .ok (apiLoop apiCall (normalize_location s))
    | _ => .error ⟨.attributeError, "object has no attribute strip".toList⟩

/-- Helper: the model tier always returns, for any location value. -/
theorem llm_geocode_isOk (po : ParseOracle) (llmCall : Except PyErr (List Char))
    (location : JValue) :
    ∃ v, llm_geocode_location po llmCall location = .ok v := by
  unfold llm_geocode_location
  split
  · exact ⟨_, rfl⟩
  · exact ⟨none, rfl⟩

/-- Helper: the web tier always returns on string locations. -/
theorem api_geocode_isOk_str (apiCall : List Char → Except PyErr JValue)
    (s apiKey : List Char) :
    ∃ v, api_geocode_location apiCall (.str s) apiKey = .ok v := by
  unfold api_geocode_location
  split
  · exact ⟨none, rfl⟩
  · exact ⟨_, rfl⟩

/-- C2: for every location string and every behaviour of the language model,
the parsing layer and the geocoding web service (including thrown transport
errors), neither tier ever propagates an exception: each returns a value
(a coordinate pair or the explicit `None`). -/
theorem geocode_tiers_never_raise (po : ParseOracle)
    (llmCall : Except PyErr (List Char))
    (apiCall : List Char → Except PyErr JValue) (s apiKey : List Char) :
    (∃ v, llm_geocode_location po llmCall (.str s) = .ok v) ∧
    (∃ w, api_geocode_location apiCall (.str s) apiKey = .ok w) :=
  ⟨llm_geocode_isOk po llmCall (.str s), api_geocode_isOk_str apiCall s apiKey⟩

/-! ### Weather/forecast fetch and the `chat` handler (src/app.py, 93–230,
414–504) -/

/-- Python membership `k in v`: key test on dicts, element test on lists,
substring test on strings; `TypeError` otherwise. -/
def jContains : JValue → List Char → Except PyErr Bool
  | .obj fields, k => .ok ((jLookup fields k).isSome)
  | .arr xs, k =>
    .ok (xs.any (fun v => match v with | .str s => decide (s = k) | _ => false))
  | .str s, k => .ok (containsSub s k)
  | _, _ => .error ⟨.typeError, "argument is not iterable".toList⟩

/-- Python iteration over a value: list elements, string characters, dict
keys; `TypeError` otherwise. -/
def pyIter : JValue → Except PyErr (List JValue)
  | .arr xs => .ok xs
  | .str s => .ok (s.map (fun c => .str [c]))
  | .obj fs => .ok (fs.map (fun p => .str p.1))
  | _ => .error ⟨.typeError, "object is not iterable".toList⟩

/-- Replace or append one key in a field list. -/
def setField : List (List Char × JValue) → List Char → JValue →
    List (List Char × JValue)
  | [], k, v => [(k, v)]
  | (k2, v2) :: rest, k, v =>
    if k2 = k then (k2, v) :: rest else (k2, v2) :: setField rest k v

/-- Python `entry[k] = v` on a dict (identity on other values, which the
code never reaches). -/
def jSetKey : JValue → List Char → JValue → JValue
  | .obj fields, k, v => .obj (setField fields k v)
  | j, _, _ => j

/-- Zero-padded two-digit rendering for `%H`/`%M`. -/
def two0 (n : Int) : List Char :=
  (if n < 10 then ['0'] else []) ++ Nat.toDigits 10 n.toNat

/-- `strftime("%H:%M")` of a timestamp under UTC offset `tz` seconds. -/
def fmtHM (tz : Int) (ts : ℚ) : List Char :=
  let sec := (ratFloor ts + tz) % 86400
  two0 (sec / 3600) ++ [':'] ++ two0 ((sec % 3600) / 60)

/-- The local calendar day (days since epoch) of a timestamp. -/
def localDay (tz : Int) (ts : ℚ) : Int := Int.fdiv (ratFloor ts + tz) 86400

/-- The filtering loop of `extract_today_forecast` (lines 492–502): keep
entries on today's date strictly after now, annotated with their time. -/
def todayLoop (nowTs tz : Int) : List JValue → Except PyErr (List JValue)
  | [] => .ok []
  | e :: es => do
    let dtJ ← jSubS e ("dt".toList)
    let ts ← jAsNum dtJ
    let rest ← todayLoop nowTs tz es
    if localDay tz ts = localDay tz ((nowTs : Int) : ℚ) ∧ ts > ((nowTs : Int) : ℚ) then
      return (jSetKey e ("formatted_time".toList) (.str (fmtHM tz ts))) :: rest
    else
      return rest

/-- `extract_today_forecast` (lines 480–504). -/
def extract_today_forecast (data : JValue) (nowTs tz : Int) :
    Except PyErr (List JValue) := do
  if pyTruthy data then do
    let hasList ← jContains data ("list".toList)
    if hasList then do
      let listJ ← jSubS data ("list".toList)
      let entries ← pyIter listJ
      todayLoop nowTs tz entries
    else return []
  else return []

/-- `get_weather_by_coordinates` (lines 414–444): the catch-all converts any
raised error (transport or formatting) into an error-prefixed string. -/
def get_weather_by_coordinates (call : Except PyErr JValue)
    (apiKey units : List Char) : List Char × Option JValue :=
  if apiKey.isEmpty then
    ("Error: OpenWeather API key not configured.".toList, none)
  else
    match (do
      let data ← call
      let txt ← format_weather_data data units
      return (txt, data) : Except PyErr (List Char × JValue)) with
    | .ok (t, d) => (t, some d)
    | .error e => ("Error fetching weather data: ".toList ++ e.msg, none)

/-- `get_forecast_by_coordinates` (lines 446–478): on success the same-day
entries, on failure an error string in the forecast position. -/
def get_forecast_by_coordinates (call : Except PyErr JValue)
    (apiKey : List Char) (nowTs tz : Int) : PySeq × Option JValue :=
  if apiKey.isEmpty then
    (.ofStr ("Error: OpenWeather API key not configured.".toList), none)
  else
    match (do
      let data ← call
      let tf ← extract_today_forecast data nowTs tz
      return (tf, data) : Except PyErr (List JValue × JValue)) with
    | .ok (tf, d) => (.ofList tf, some d)
    | .error e => (.ofStr ("Error fetching forecast data: ".toList ++ e.msg), none)

/-- Python `s.strip(c)` for one character. -/
def pyStripChar (c : Char) (l : List Char) : List Char :=
  ((l.dropWhile (fun x => x = c)).reverse.dropWhile (fun x => x = c)).reverse

/-- Strategy 1 of `extract_location_from_text` (lines 98–108): JSON-substring
search; the surrounding `except Exception` catches any raise. -/
def extractStrategy1 (po : ParseOracle) (text : List Char) :
    Except PyErr (Option JValue) :=
  match po.findJson text with
  | some js =>
    match po.jsonLoads js with
    | none => .error ⟨.jsonDecodeError, "Expecting value".toList⟩
    | some data => do
      let b ← jContains data ("location".toList)
      if b then do
        let v ← jSubS data ("location".toList)
        return some v
      else return none
  | none => .ok none

/-- `extract_location_from_text` (lines 93–130): tiered fallback extraction,
never raising. -/
def extract_location_from_text (po : ParseOracle) (text : List Char) :
    Option JValue :=
  match (match extractStrategy1 po text with
         | .ok r => r
         | .error _ => none) with
  | some v => some v
  | none =>
    match po.locPattern text with
    | some g => some (.str (pyStripChar '"' g))
    | none =>
      match po.weatherPattern text with
      | some g => some (.str (pyStrip g))
      | none => none

/-- Truthiness of an optional value (`None` is falsy). -/
def optTruthy : Option JValue → Bool
  | none => false
  | some v => pyTruthy v

/-- The `except json.JSONDecodeError` fallback of the chat handler
(lines 164–175). -/
def extractFallback (po : ParseOracle) (llmResponse uq : List Char) : JValue :=
  let l1 := extract_location_from_text po llmResponse
  let l2 := if optTruthy l1 then l1 else extract_location_from_text po uq
  if optTruthy l2 then l2.getD .null else .str ("Unknown".toList)

/-- The location-extraction phase of the chat handler (lines 151–175):
JSON-substring parse (or whole-response parse), with the manual-extraction
fallback only on `JSONDecodeError`; a `.get` on a non-dict raises out. -/
def extractPhase (po : ParseOracle) (llmResponse uq : List Char) :
    Except PyErr JValue :=
  let attempt : Except PyErr JValue :=
    match po.findJson llmResponse with
    | some js =>
      match po.jsonLoads js with
      | none => .error ⟨.jsonDecodeError, "Expecting value".toList⟩
      | some data => jGetD data ("location".toList) (.str ("Unknown".toList))
    | none =>
      match po.jsonLoads llmResponse with
      | none => .error ⟨.jsonDecodeError, "Expecting value".toList⟩
      | some data => jGetD data ("location".toList) (.str ("Unknown".toList))
  match attempt with
  | .ok v => .ok v
  | .error e =>
    if e.kind = .jsonDecodeError then .ok (extractFallback po llmResponse uq)
    else .error e

/-- ASCII letter class of the regex `[A-Za-z]`. -/
def isAsciiAlpha (c : Char) : Bool :=
  ('a' ≤ c && c ≤ 'z') || ('A' ≤ c && c ≤ 'Z')

/-- `re.search(r'([A-Za-z]+)', s)`: the first maximal ASCII-letter run. -/
def firstAlphaRun (l : List Char) : Option (List Char) :=
  let rest := l.dropWhile (fun c => !isAsciiAlpha c)
  if rest.isEmpty then none else some (rest.takeWhile isAsciiAlpha)

/-- The unresolved-location response (lines 208–215). -/
def couldNotFindMsg (l : List Char) : List Char :=
  match firstAlphaRun l with
  | some city =>
    "I couldn't find the specific location '".toList ++ l ++
    "'. Try asking about the weather in '".toList ++ city ++ "' instead.".toList
  | none =>
    "I couldn't find the location '".toList ++ l ++
    "'. Please try a different location.".toList

/-- Line 217's fixed prompt. -/
def needLocationMsg : List Char :=
  "I need a location to check the weather. Please specify a city or place.".toList

/-- Line 220's fixed apology. -/
def troubleMsg : List Char :=
  "I had trouble processing your weather query. Please try again with a clearer location.".toList

/-- Observable invocations of the pipeline's collaborators. -/
inductive Event where
  | llmLoc (q : List Char)
  | llmGeo (loc : JValue)
  | apiGeo (loc : JValue)
  | weatherGet (lat lon : JValue)
  | forecastGet (lat lon : JValue)
  | generalLlm (q : List Char)

/-- The external world the chat handler talks to: language-model responses,
HTTP results keyed by request, parsing primitives, configuration, and the
wall clock. -/
structure Env where
  po : ParseOracle
  locRespFor : List Char → Except PyErr (List Char)
  geoLlmRespFor : JValue → Except PyErr (List Char)
  apiRespFor : List Char → Except PyErr JValue
  weatherRespFor : JValue → JValue → Except PyErr JValue
  forecastRespFor : JValue → JValue → Except PyErr JValue
  generalRespFor : List Char → Except PyErr (List Char)
  apiKey : List Char
  units : List Char
  nowTs : Int
  tz : Int

/-- The HTTP-level outcome of one `/chat` request. -/
inductive ChatResult where
  | ok (response : List Char)
  | httpError (detail : List Char)

/-- Lines 189–207: fetch current weather and forecast, branch on the
"Error" substring, else attach clothing recommendations. -/
def fetchAndRespond (env : Env) (location : JValue) (lat lon : JValue)
    (evs : List Event) : Except PyErr (List Char) × List Event :=
  if containsSub (get_weather_by_coordinates (env.weatherRespFor lat lon)
      env.apiKey env.units).1 ("Error".toList) then
    (.ok ("I couldn't get the weather for ".toList ++ pyStrAny location ++
        ". ".toList ++
        (get_weather_by_coordinates (env.weatherRespFor lat lon)
          env.apiKey env.units).1),
     evs ++ [Event.weatherGet lat lon, Event.forecastGet lat lon])
  else
    match get_clothing_recommendation env.tz
        (get_weather_by_coordinates (env.weatherRespFor lat lon)
          env.apiKey env.units).2
        (get_forecast_by_coordinates (env.forecastRespFor lat lon)
          env.apiKey env.nowTs env.tz).1 with
    | .ok clothing =>
      (.ok ("Based on your query about the weather in ".toList ++
          pyStrAny location ++ ", here's what I found:\n\n".toList ++
          (get_weather_by_coordinates (env.weatherRespFor lat lon)
            env.apiKey env.units).1 ++
          "\n\n".toList ++ clothing),
       evs ++ [Event.weatherGet lat lon, Event.forecastGet lat lon])
    | .error e =>
      (.error e, evs ++ [Event.weatherGet lat lon, Event.forecastGet lat lon])

/-- Lines 180–215: model-estimate tier first, web tier only when it returned
nothing, unresolved-location response when both fail. -/
def geocodePhase (env : Env) (location : JValue) (evs : List Event) :
    Except PyErr (List Char) × List Event :=
  match llm_geocode_location env.po (env.geoLlmRespFor location) location with
  | .error e => (.error e, evs ++ [Event.llmGeo location])
  | .ok (some (lat, lon)) =>
    fetchAndRespond env location lat lon (evs ++ [Event.llmGeo location])
  | .ok none =>
    match api_geocode_location env.apiRespFor location env.apiKey with
    | .error e =>
      (.error e, evs ++ [Event.llmGeo location, Event.apiGeo location])
    | .ok (some (lat, lon)) =>
      fetchAndRespond env location lat lon
        (evs ++ [Event.llmGeo location, Event.apiGeo location])
    | .ok none =>
      match location with
      | .str l =>
        (.ok (couldNotFindMsg l),
         evs ++ [Event.llmGeo location, Event.apiGeo location])
      | _ =>
        (.error ⟨.typeError, "expected string or bytes-like object".toList⟩,
         evs ++ [Event.llmGeo location, Event.apiGeo location])

/-- Lines 144–220: the weather branch under its `except Exception`. -/
def weatherBranch (env : Env) (uq : List Char) :
    Except PyErr (List Char) × List Event :=
  match env.locRespFor uq with
  | .error e => (.error e, [Event.llmLoc uq])
  | .ok llmResponse =>
    match extractPhase env.po llmResponse uq with
    | .error e => (.error e, [Event.llmLoc uq])
    | .ok location =>
      if pyTruthy location then
        match pyLowerJ location with
        | .error e => (.error e, [Event.llmLoc uq])
        | .ok lloc =>
          if lloc ≠ "unknown".toList then
            geocodePhase env location [Event.llmLoc uq]
          else (.ok needLocationMsg, [Event.llmLoc uq])
      else (.ok needLocationMsg, [Event.llmLoc uq])

/-- The `/chat` handler (lines 135–230): route on the "weather" substring;
weather-branch exceptions become the fixed apology, general-branch
exceptions become an HTTP 500. -/
def chat (env : Env) (text : List Char) : ChatResult × List Event :=
  if containsSub (lowerStr (preprocess_query text)) ("weather".toList) then
    match weatherBranch env (preprocess_query text) with
    | (.ok resp, evs) => (.ok resp, evs)
    | (.error _, evs) => (.ok troubleMsg, evs)
  else
    match env.generalRespFor (preprocess_query text) with
    | .ok resp => (.ok resp, [Event.generalLlm (preprocess_query text)])
    | .error e => (.httpError e.msg, [Event.generalLlm (preprocess_query text)])

/-! ### Claim theorems about the `chat` handler -/

theorem containsSub_char_iff (s pat : List Char) :
    containsSub s pat = true ↔ pat <:+: s := by
  induction s with
  | nil =>
    simp only [containsSub, List.isEmpty_iff]
    constructor
    · intro h; rw [h]
    · intro h
      exact List.eq_nil_of_infix_nil h
  | cons c tl ih =>
    simp only [containsSub, Bool.or_eq_true, ih]
    rw [List.infix_cons_iff]
    constructor
    · rintro (h | h)
      · exact Or.inl (List.isPrefixOf_iff_prefix.mp h)
      · exact Or.inr h
    · rintro (h | h)
      · exact Or.inl (List.isPrefixOf_iff_prefix.mpr h)
      · exact Or.inr h

/-- C1: a query whose normalized text lacks the "weather" substring takes the
general branch: the only collaborator invoked is the general language-model
chain, and its output is the response verbatim. -/
theorem chat_general_bypass (env : Env) (t : List Char)
    (h : containsSub (lowerStr (preprocess_query t)) ("weather".toList) = false) :
    (chat env t).2 = [Event.generalLlm (preprocess_query t)] ∧
    (∀ s, env.generalRespFor (preprocess_query t) = .ok s →
      (chat env t).1 = ChatResult.ok s) := by
  have hneg : ¬ containsSub (lowerStr (preprocess_query t)) ("weather".toList) = true := by
    rw [h]; exact Bool.false_ne_true
  cases hg : env.generalRespFor (preprocess_query t) with
  | ok s2 =>
    have hchat : chat env t = (.ok s2, [Event.generalLlm (preprocess_query t)]) := by
      unfold chat
      rw [if_neg hneg, hg]
    rw [hchat]
    exact ⟨rfl, fun s hs => by
      injection hs with h2
      rw [h2]⟩
  | error e =>
    have hchat : chat env t =
        (.httpError e.msg, [Event.generalLlm (preprocess_query t)]) := by
      unfold chat
      rw [if_neg hneg, hg]
    rw [hchat]
    refine ⟨rfl, fun s hs => ?_⟩
    exact absurd hs (by simp)

/-- The environment used to instantiate the general-branch claim. -/
def env1 : Env where
  po := ⟨fun _ => none, fun _ => none, fun _ => none, fun _ => none,
         fun _ => none, fun _ => none⟩
  locRespFor := fun _ => .ok []
  geoLlmRespFor := fun _ => .ok []
  apiRespFor := fun _ => .ok (.arr [])
  weatherRespFor := fun _ _ => .ok .null
  forecastRespFor := fun _ _ => .ok .null
  generalRespFor := fun _ => .ok ("General answer.".toList)
  apiKey := "k".toList
  units := "metric".toList
  nowTs := 0
  tz := 0

/-- Concrete instantiation of C1 on "Tell me about Python". -/
theorem chat_general_bypass_witness :
    (chat env1 ("Tell me about Python".toList)).2 =
      [Event.generalLlm (preprocess_query ("Tell me about Python".toList))] ∧
    (chat env1 ("Tell me about Python".toList)).1 =
      ChatResult.ok ("General answer.".toList) :=
  ⟨(chat_general_bypass env1 ("Tell me about Python".toList) (by decide)).1,
   (chat_general_bypass env1 ("Tell me about Python".toList) (by decide)).2
     ("General answer.".toList) rfl⟩

/-- Reduction of the weather branch once extraction produced a usable
location. -/
theorem weatherBranch_eq (env : Env) (uq resp : List Char) (loc : JValue)
    (lloc : List Char)
    (hresp : env.locRespFor uq = .ok resp)
    (hext : extractPhase env.po resp uq = .ok loc)
    (htr : pyTruthy loc = true)
    (hlow : pyLowerJ loc = .ok lloc)
    (hunk : lloc ≠ "unknown".toList) :
    weatherBranch env uq = geocodePhase env loc [Event.llmLoc uq] := by
  unfold weatherBranch
  simp only [hresp]
  simp only [hext]
  simp only [htr, if_true]
  simp only [hlow]
  rw [if_pos hunk]

/-- Reduction of `chat` once the weather branch reaches geocoding. -/
theorem chat_weather_eq (env : Env) (t resp : List Char) (loc : JValue)
    (lloc : List Char)
    (hw : containsSub (lowerStr (preprocess_query t)) ("weather".toList) = true)
    (hresp : env.locRespFor (preprocess_query t) = .ok resp)
    (hext : extractPhase env.po resp (preprocess_query t) = .ok loc)
    (htr : pyTruthy loc = true)
    (hlow : pyLowerJ loc = .ok lloc)
    (hunk : lloc ≠ "unknown".toList) :
    chat env t =
      match geocodePhase env loc [Event.llmLoc (preprocess_query t)] with
      | (.ok r, evs) => (ChatResult.ok r, evs)
      | (.error _, evs) => (ChatResult.ok troubleMsg, evs) := by
  unfold chat
  rw [if_pos hw, weatherBranch_eq env (preprocess_query t) resp loc lloc
    hresp hext htr hlow hunk]

/-- The fetch stage always appends exactly the two weather-fetch events. -/
theorem fetchAndRespond_trace (env : Env) (loc lat lon : JValue)
    (evs : List Event) :
    (fetchAndRespond env loc lat lon evs).2 =
      evs ++ [Event.weatherGet lat lon, Event.forecastGet lat lon] := by
  unfold fetchAndRespond
  split
  · rfl
  · split <;> rfl

/-- C10: whenever the formatted current-weather text contains the substring
"Error" — whatever its provenance — the handler returns the
"I couldn't get the weather" response instead of the weather report. -/
theorem chat_error_substring (env : Env) (t resp : List Char) (loc : JValue)
    (lloc : List Char) (lat lon : JValue)
    (hw : containsSub (lowerStr (preprocess_query t)) ("weather".toList) = true)
    (hresp : env.locRespFor (preprocess_query t) = .ok resp)
    (hext : extractPhase env.po resp (preprocess_query t) = .ok loc)
    (htr : pyTruthy loc = true)
    (hlow : pyLowerJ loc = .ok lloc)
    (hunk : lloc ≠ "unknown".toList)
    (hr1 : llm_geocode_location env.po (env.geoLlmRespFor loc) loc =
      .ok (some (lat, lon)))
    (herr : containsSub (get_weather_by_coordinates (env.weatherRespFor lat lon)
      env.apiKey env.units).1 ("Error".toList) = true) :
    (chat env t).1 = ChatResult.ok
      ("I couldn't get the weather for ".toList ++ pyStrAny loc ++ ". ".toList ++
        (get_weather_by_coordinates (env.weatherRespFor lat lon)
          env.apiKey env.units).1) := by
  rw [chat_weather_eq env t resp loc lloc hw hresp hext htr hlow hunk]
  unfold geocodePhase
  simp only [hr1]
  unfold fetchAndRespond
  rw [if_pos herr]

/-- The three properties of the unresolved-location message. -/
theorem couldNotFindMsg_props (l : List Char) :
    containsSub (couldNotFindMsg l) ("couldn't find".toList) = true ∧
    containsSub (couldNotFindMsg l) l = true ∧
    (∀ c, firstAlphaRun l = some c →
      couldNotFindMsg l =
        "I couldn't find the specific location '".toList ++ l ++
        "'. Try asking about the weather in '".toList ++ c ++
        "' instead.".toList) := by
  cases hfa : firstAlphaRun l with
  | some city =>
    have hmsg : couldNotFindMsg l =
        "I couldn't find the specific location '".toList ++ l ++
        "'. Try asking about the weather in '".toList ++ city ++
        "' instead.".toList := by
      unfold couldNotFindMsg
      rw [hfa]
    have h1 : ("couldn't find".toList) <:+:
        ("I couldn't find the specific location '".toList) :=
      (containsSub_char_iff ("I couldn't find the specific location '".toList)
        ("couldn't find".toList)).mp (by decide)
    refine ⟨?_, ?_, ?_⟩
    · rw [hmsg, containsSub_char_iff]
      exact h1.trans (List.IsPrefix.isInfix (List.prefix_append _ _))
    · rw [hmsg, containsSub_char_iff]
      exact ⟨"I couldn't find the specific location '".toList,
        "'. Try asking about the weather in '".toList ++ city ++
          "' instead.".toList, by simp [List.append_assoc]⟩
    · intro c hc
      injection hc with h2
      rw [hmsg, h2]
  | none =>
    have hmsg : couldNotFindMsg l =
        "I couldn't find the location '".toList ++ l ++
        "'. Please try a different location.".toList := by
      unfold couldNotFindMsg
      rw [hfa]
    have h1 : ("couldn't find".toList) <:+:
        ("I couldn't find the location '".toList) :=
      (containsSub_char_iff ("I couldn't find the location '".toList)
        ("couldn't find".toList)).mp (by decide)
    refine ⟨?_, ?_, ?_⟩
    · rw [hmsg, containsSub_char_iff]
      exact h1.trans (List.IsPrefix.isInfix (List.prefix_append _ _))
    · rw [hmsg, containsSub_char_iff]
      exact ⟨"I couldn't find the location '".toList,
        "'. Please try a different location.".toList, by simp [List.append_assoc]⟩
    · intro c hc
      exact absurd hc (by simp)

/-- C8: when both geocoding tiers return no result, the response names the
unresolved location, contains "couldn't find", and — when an alphabetic
token can be isolated — suggests that token as a retry. -/
theorem chat_unresolved_location (env : Env) (t resp l2 : List Char)
    (hw : containsSub (lowerStr (preprocess_query t)) ("weather".toList) = true)
    (hresp : env.locRespFor (preprocess_query t) = .ok resp)
    (hext : extractPhase env.po resp (preprocess_query t) = .ok (.str l2))
    (htr : pyTruthy (.str l2) = true)
    (hunk : lowerStr l2 ≠ "unknown".toList)
    (hr1 : llm_geocode_location env.po (env.geoLlmRespFor (.str l2)) (.str l2) =
      .ok none)
    (hr2 : api_geocode_location env.apiRespFor (.str l2) env.apiKey = .ok none) :
    (chat env t).1 = ChatResult.ok (couldNotFindMsg l2) ∧
    containsSub (couldNotFindMsg l2) ("couldn't find".toList) = true ∧
    containsSub (couldNotFindMsg l2) l2 = true ∧
    (∀ c, firstAlphaRun l2 = some c →
      couldNotFindMsg l2 =
        "I couldn't find the specific location '".toList ++ l2 ++
        "'. Try asking about the weather in '".toList ++ c ++
        "' instead.".toList) := by
  obtain ⟨hp1, hp2, hp3⟩ := couldNotFindMsg_props l2
  refine ⟨?_, hp1, hp2, hp3⟩
  rw [chat_weather_eq env t resp (.str l2) (lowerStr l2) hw hresp hext htr rfl hunk]
  unfold geocodePhase
  simp only [hr1, hr2]

/-- C5: once geocoding is reached, the model tier is invoked first; the web
tier is invoked if and only if the model tier returned no result; and the
weather fetch is skipped exactly when both tiers returned no result. -/
theorem geocode_tier_order (env : Env) (t resp : List Char) (loc : JValue)
    (lloc : List Char)
    (hw : containsSub (lowerStr (preprocess_query t)) ("weather".toList) = true)
    (hresp : env.locRespFor (preprocess_query t) = .ok resp)
    (hext : extractPhase env.po resp (preprocess_query t) = .ok loc)
    (htr : pyTruthy loc = true)
    (hlow : pyLowerJ loc = .ok lloc)
    (hunk : lloc ≠ "unknown".toList) :
    (∃ rest, (chat env t).2 =
      Event.llmLoc (preprocess_query t) :: Event.llmGeo loc :: rest) ∧
    (llm_geocode_location env.po (env.geoLlmRespFor loc) loc = .ok none →
      ∃ rest, (chat env t).2 =
        Event.llmLoc (preprocess_query t) :: Event.llmGeo loc ::
          Event.apiGeo loc :: rest) ∧
    ((∃ c, llm_geocode_location env.po (env.geoLlmRespFor loc) loc =
        .ok (some c)) →
      ∀ l2, Event.apiGeo l2 ∉ (chat env t).2) ∧
    ((llm_geocode_location env.po (env.geoLlmRespFor loc) loc = .ok none ∧
      api_geocode_location env.apiRespFor loc env.apiKey = .ok none) ↔
      ∀ la lo, Event.weatherGet la lo ∉ (chat env t).2) := by
  obtain ⟨l, rfl⟩ : ∃ l, loc = .str l := by
    cases loc
    case str s => exact ⟨s, rfl⟩
    all_goals exact absurd hlow (by simp [pyLowerJ])
  have htrace : (chat env t).2 =
      (geocodePhase env (.str l) [Event.llmLoc (preprocess_query t)]).2 := by
    rw [chat_weather_eq env t resp (.str l) lloc hw hresp hext htr hlow hunk]
    rcases hgp : geocodePhase env (.str l) [Event.llmLoc (preprocess_query t)]
      with ⟨r, evs⟩
    cases r <;> rfl
  cases hr1 : llm_geocode_location env.po (env.geoLlmRespFor (.str l)) (.str l) with
  | error e =>
    exfalso
    obtain ⟨v, hv⟩ := llm_geocode_isOk env.po (env.geoLlmRespFor (.str l)) (.str l)
    rw [hr1] at hv
    exact absurd hv (by simp)
  | ok o1 =>
    cases o1 with
    | some c =>
      obtain ⟨lat, lon⟩ := c
      have hgp : geocodePhase env (.str l) [Event.llmLoc (preprocess_query t)] =
          fetchAndRespond env (.str l) lat lon
            ([Event.llmLoc (preprocess_query t)] ++ [Event.llmGeo (.str l)]) := by
        unfold geocodePhase
        simp only [hr1]
      have htr2 : (chat env t).2 =
          [Event.llmLoc (preprocess_query t), Event.llmGeo (.str l),
           Event.weatherGet lat lon, Event.forecastGet lat lon] := by
        rw [htrace, hgp, fetchAndRespond_trace]
        simp
      refine ⟨⟨_, by rw [htr2]⟩, ?_, ?_, ?_⟩
      · intro hcon
        exact absurd hcon (by simp)
      · intro _ l2 hm
        rw [htr2] at hm
        simp at hm
      · constructor
        · rintro ⟨hcon, _⟩
          exact absurd hcon (by simp)
        · intro hall
          exfalso
          exact hall lat lon (by rw [htr2]; simp)
    | none =>
      cases hr2 : api_geocode_location env.apiRespFor (.str l) env.apiKey with
      | error e2 =>
        exfalso
        obtain ⟨v, hv⟩ := api_geocode_isOk_str env.apiRespFor l env.apiKey
        rw [hr2] at hv
        exact absurd hv (by simp)
      | ok o2 =>
        cases o2 with
        | some c =>
          obtain ⟨lat, lon⟩ := c
          have hgp : geocodePhase env (.str l)
              [Event.llmLoc (preprocess_query t)] =
              fetchAndRespond env (.str l) lat lon
                ([Event.llmLoc (preprocess_query t)] ++
                  [Event.llmGeo (.str l), Event.apiGeo (.str l)]) := by
            unfold geocodePhase
            simp only [hr1, hr2]
          have htr2 : (chat env t).2 =
              [Event.llmLoc (preprocess_query t), Event.llmGeo (.str l),
               Event.apiGeo (.str l), Event.weatherGet lat lon,
               Event.forecastGet lat lon] := by
            rw [htrace, hgp, fetchAndRespond_trace]
            simp
          refine ⟨⟨_, by rw [htr2]⟩, fun _ => ⟨_, by rw [htr2]⟩, ?_, ?_⟩
          · rintro ⟨c2, hc2⟩
            exact absurd hc2 (by simp)
          · constructor
            · rintro ⟨_, hcon⟩
              exact absurd hcon (by simp)
            · intro hall
              exfalso
              exact hall lat lon (by rw [htr2]; simp)
        | none =>
          have hgp : geocodePhase env (.str l)
              [Event.llmLoc (preprocess_query t)] =
              (.ok (couldNotFindMsg l),
               [Event.llmLoc (preprocess_query t)] ++
                 [Event.llmGeo (.str l), Event.apiGeo (.str l)]) := by
            unfold geocodePhase
            simp only [hr1, hr2]
          have htr2 : (chat env t).2 =
              [Event.llmLoc (preprocess_query t), Event.llmGeo (.str l),
               Event.apiGeo (.str l)] := by
            rw [htrace, hgp]
            simp
          refine ⟨⟨_, by rw [htr2]⟩, fun _ => ⟨_, by rw [htr2]⟩, ?_, ?_⟩
          · rintro ⟨c2, hc2⟩
            exact absurd hc2 (by simp)
          · constructor
            · intro _ la lo hm
              rw [htr2] at hm
              simp at hm
            · intro _
              exact ⟨rfl, rfl⟩

/-- A parse oracle whose model responses carry a location and coordinates. -/
def cexPO : ParseOracle where
  findJson := fun s => some s
  jsonLoads := fun _ => some (.obj
    [("location".toList, .str ("London".toList)),
     ("latitude".toList, .num 51),
     ("longitude".toList, .num 0)])
  coordsRegex := fun _ => none
  pyFloat := fun _ => none
  locPattern := fun _ => none
  weatherPattern := fun _ => none

/-- An environment where the model geocoding call throws and the geocoding
API returns an empty result list: both tiers yield no result. -/
def env8 : Env where
  po := cexPO
  locRespFor := fun _ => .ok []
  geoLlmRespFor := fun _ => .error ⟨.requestError, "connection refused".toList⟩
  apiRespFor := fun _ => .ok (.arr [])
  weatherRespFor := fun _ _ => .ok .null
  forecastRespFor := fun _ _ => .ok .null
  generalRespFor := fun _ => .ok []
  apiKey := "k".toList
  units := "metric".toList
  nowTs := 0
  tz := 0

/-- Concrete instantiation of C8: both tiers fail on "London". -/
theorem chat_unresolved_location_witness :
    (chat env8 ("weather in London".toList)).1 =
      ChatResult.ok (couldNotFindMsg ("London".toList)) ∧
    containsSub (couldNotFindMsg ("London".toList))
      ("couldn't find".toList) = true ∧
    containsSub (couldNotFindMsg ("London".toList)) ("London".toList) = true := by
  have h := chat_unresolved_location env8 ("weather in London".toList) []
    ("London".toList) (by decide) rfl (by rfl) (by decide) (by decide)
    (by rfl) (by rfl)
  exact ⟨h.1, h.2.1, h.2.2.1⟩

/-- Concrete instantiation of C5 in the both-tiers-fail environment. -/
theorem geocode_tier_order_witness :
    (∃ rest, (chat env8 ("weather in London".toList)).2 =
      Event.llmLoc (preprocess_query ("weather in London".toList)) ::
        Event.llmGeo (.str ("London".toList)) :: rest) ∧
    (llm_geocode_location env8.po
        (env8.geoLlmRespFor (.str ("London".toList))) (.str ("London".toList)) =
          .ok none →
      ∃ rest, (chat env8 ("weather in London".toList)).2 =
        Event.llmLoc (preprocess_query ("weather in London".toList)) ::
          Event.llmGeo (.str ("London".toList)) ::
            Event.apiGeo (.str ("London".toList)) :: rest) ∧
    (∀ la lo, Event.weatherGet la lo ∉ (chat env8 ("weather in London".toList)).2) := by
  have h := geocode_tier_order env8 ("weather in London".toList) []
    (.str ("London".toList)) ("london".toList) (by decide) rfl (by rfl)
    (by decide) (by rfl) (by decide)
  exact ⟨h.1, h.2.1, h.2.2.2.mp ⟨by rfl, by rfl⟩⟩

/-- A fully populated current-weather payload whose city name contains the
substring "Error" (all leaves strings, as a provider may legitimately
return). -/
def errCityPayload : JValue :=
  .obj [("name".toList, .str ("Errorville".toList)),
        ("sys".toList, .obj [("country".toList, .str ("GB".toList))]),
        ("main".toList, .obj [("temp".toList, .str ("5".toList)),
                              ("feels_like".toList, .str ("4".toList)),
                              ("humidity".toList, .str ("70".toList))]),
        ("weather".toList, .arr [.obj [("description".toList,
                                        .str ("clouds".toList))]]),
        ("wind".toList, .obj [("speed".toList, .str ("3".toList))])]

/-- An environment where geocoding succeeds via the model tier and the
weather fetch succeeds with the "Errorville" payload. -/
def env10 : Env where
  po := cexPO
  locRespFor := fun _ => .ok []
  geoLlmRespFor := fun _ => .ok []
  apiRespFor := fun _ => .ok (.arr [])
  weatherRespFor := fun _ _ => .ok errCityPayload
  forecastRespFor := fun _ _ => .error ⟨.requestError, "timeout".toList⟩
  generalRespFor := fun _ => .ok []
  apiKey := "k".toList
  units := "metric".toList
  nowTs := 0
  tz := 0

/-- Concrete instantiation of C10: the fetch succeeded, yet the city name
"Errorville" makes the formatted text contain "Error", so the handler
returns the failure response. -/
theorem chat_error_substring_witness :
    (chat env10 ("weather in London".toList)).1 = ChatResult.ok
      ("I couldn't get the weather for ".toList ++
        pyStrAny (.str ("London".toList)) ++ ". ".toList ++
        (get_weather_by_coordinates
          (env10.weatherRespFor (.num 51) (.num 0))
          env10.apiKey env10.units).1) :=
  chat_error_substring env10 ("weather in London".toList) []
    (.str ("London".toList)) ("london".toList) (.num 51) (.num 0)
    (by decide) rfl (by rfl) (by decide) (by rfl) (by decide) (by rfl)
    (by decide)

end MorningPlanner
